import Mathlib

/-!
# CESI chat widget (`widget-embed.js`): phone mask, replies, timers, transcript

A shallow embedding of the client-side conversation controller of the
embeddable chat widget, and the properties of it that the specification states.

JavaScript strings are modelled as lists of characters; the mask only ever
distinguishes the ASCII digits `0`..`9` from every other character.
-/

namespace CesiWidget

/-- A JavaScript string, as the sequence of its characters. -/
abbrev JsString := List Char

/-- The call `s.slice(a, b)` for non-negative `a` and `b`. -/
def slice (s : JsString) (a b : Nat) : JsString := (s.take b).drop a

/-- The call `s.startsWith(c)` for a one-character string `c`. -/
def startsWith (s : JsString) (c : Char) : Bool :=
  match s with
  | [] => false
  | x :: _ => x == c

/-- The call `parts.join('')`. -/
def joinParts (parts : List JsString) : JsString := parts.flatten

namespace attachPhoneMask

/-- `const digitsOnly = v => v.replace(/\D/g,'')`: without the `u` flag `\D`
is every character outside `0`..`9`. -/
def digitsOnly (v : JsString) : JsString := v.filter Char.isDigit

/-- The first half of `format` (lines 874-879): the digit string `d` just
before the display parts are assembled. -/
def normalizedDigits (v : JsString) : JsString :=
  let d := digitsOnly v
  let d := if startsWith d '8' then '7' :: d.drop 1 else d
  let d := if startsWith d '9' then '7' :: d else d
  let d := if !startsWith d '7' then '7' :: d else d
  slice d 0 11

/-- The second half of `format` (lines 880-885): the display parts pushed for
the digit string `d`, joined. -/
def assemble (d : JsString) : JsString :=
  let parts : List JsString := [['+', '7']]
  let parts := if d.length > 1 then parts ++ [[' ', '('], slice d 1 4] else parts
  let parts := if d.length ≥ 4 then parts ++ [[')'], slice d 4 7] else parts
  let parts := if d.length ≥ 7 then parts ++ [['-'], slice d 7 9] else parts
  let parts := if d.length ≥ 9 then parts ++ [['-'], slice d 9 11] else parts
  joinParts parts

/-- `const format = v => { ... }`. -/
def format (v : JsString) : JsString := assemble (normalizedDigits v)

/-- `const isValid = v => digitsOnly(v).length === 11`. -/
def isValid (v : JsString) : Bool := (digitsOnly v).length == 11

/-- `const toE164 = v => isValid(v) ? '+' + digitsOnly(v) : null`. -/
def toE164 (v : JsString) : Option JsString :=
  if isValid v then some ('+' :: digitsOnly v) else none

end attachPhoneMask

/-! ## The phone-capture control -/

/-- The phone-capture control built inside `cesiAppendMessage` (lines 838-978):
the text input, the "send" button next to it, and what the mask attached to
the input captured as its `submitBtn` argument. -/
structure PhoneCapture where
  /-- The property `phoneInput.value`. -/
  value : JsString
  /-- Truthiness of the `submitBtn` parameter captured by the mask's `onInput`. -/
  maskHasSubmitBtn : Bool
  /-- The property `sendButton.disabled`. -/
  sendButtonDisabled : Bool
  deriving DecidableEq, Repr

namespace attachPhoneMask

/-- `const onInput = () => { input.value = format(input.value);
if (submitBtn) submitBtn.disabled = !isValid(input.value); }`. -/
def onInput (pc : PhoneCapture) : PhoneCapture :=
  let value := format pc.value
  { pc with
    value := value
    sendButtonDisabled :=
      if pc.maskHasSubmitBtn then !isValid value else pc.sendButtonDisabled }

/-- The method `getE164: () => toE164(input.value)` of the returned object. -/
def getE164 (pc : PhoneCapture) : Option JsString := toE164 pc.value

end attachPhoneMask

/-- The control as `cesiAppendMessage` leaves it. On line 908 the mask is
attached with `attachPhoneMask(phoneInput, sendButton)` while the hoisted
`var sendButton` is still `undefined` (it is assigned on line 927), so the mask
captures no submit button; `onInput()` then runs once on the empty input. The
button created afterwards has the default `disabled = false`, and
`updateSendButton` (line 952) is never called. -/
def newPhoneCapture : PhoneCapture :=
  attachPhoneMask.onInput
    { value := [], maskHasSubmitBtn := false, sendButtonDisabled := false }

/-- An `input` event: the user has edited the field to `raw`, then `onInput` runs. -/
def PhoneCapture.inputEvent (raw : JsString) (pc : PhoneCapture) : PhoneCapture :=
  attachPhoneMask.onInput { pc with value := raw }

/-- A `blur` event: `onInput` runs on the current value (the other `blur`
listener only changes the border colour). -/
def PhoneCapture.blurEvent (pc : PhoneCapture) : PhoneCapture :=
  attachPhoneMask.onInput pc

/-- What the user does to a phone-capture control between its creation and a submit. -/
inductive PhoneEvent
  | input (raw : JsString)
  | blur
  deriving DecidableEq, Repr

/-- One event applied to the control. -/
def PhoneCapture.handle (pc : PhoneCapture) : PhoneEvent → PhoneCapture
  | .input raw => pc.inputEvent raw
  | .blur => pc.blurEvent

/-- A sequence of events applied in order, starting from the fresh control. -/
def phoneCaptureAfter (events : List PhoneEvent) : PhoneCapture :=
  events.foldl PhoneCapture.handle newPhoneCapture

/-! ## JavaScript values read from a reply -/

/-- A value produced by `resp.json()`. A number is kept as what the widget can
observe of it: whether it is zero (the only falsy numbers JSON yields) and
its `String(...)` rendering. -/
inductive Json
  | null
  | bool (b : Bool)
  | num (isZero : Bool) (shown : JsString)
  | str (s : JsString)
  | arr (items : List Json)
  | obj (fields : List (JsString × Json))

instance : Inhabited Json := ⟨.null⟩

mutual
/-- Equality of two JSON values is decidable. -/
def Json.decEq : (a b : Json) → Decidable (a = b)
  | .null, .null => isTrue rfl
  | .bool a, .bool b => decidable_of_iff (a = b) (by simp)
  | .num z s, .num z2 s2 => decidable_of_iff (z = z2 ∧ s = s2) (by simp)
  | .str a, .str b => decidable_of_iff (a = b) (by simp)
  | .arr a, .arr b => @decidable_of_iff _ (a = b) (by simp) (Json.decEqList a b)
  | .obj a, .obj b => @decidable_of_iff _ (a = b) (by simp) (Json.decEqFields a b)
  | .null, .bool _ => isFalse (by simp)
  | .null, .num _ _ => isFalse (by simp)
  | .null, .str _ => isFalse (by simp)
  | .null, .arr _ => isFalse (by simp)
  | .null, .obj _ => isFalse (by simp)
  | .bool _, .null => isFalse (by simp)
  | .bool _, .num _ _ => isFalse (by simp)
  | .bool _, .str _ => isFalse (by simp)
  | .bool _, .arr _ => isFalse (by simp)
  | .bool _, .obj _ => isFalse (by simp)
  | .num _ _, .null => isFalse (by simp)
  | .num _ _, .bool _ => isFalse (by simp)
  | .num _ _, .str _ => isFalse (by simp)
  | .num _ _, .arr _ => isFalse (by simp)
  | .num _ _, .obj _ => isFalse (by simp)
  | .str _, .null => isFalse (by simp)
  | .str _, .bool _ => isFalse (by simp)
  | .str _, .num _ _ => isFalse (by simp)
  | .str _, .arr _ => isFalse (by simp)
  | .str _, .obj _ => isFalse (by simp)
  | .arr _, .null => isFalse (by simp)
  | .arr _, .bool _ => isFalse (by simp)
  | .arr _, .num _ _ => isFalse (by simp)
  | .arr _, .str _ => isFalse (by simp)
  | .arr _, .obj _ => isFalse (by simp)
  | .obj _, .null => isFalse (by simp)
  | .obj _, .bool _ => isFalse (by simp)
  | .obj _, .num _ _ => isFalse (by simp)
  | .obj _, .str _ => isFalse (by simp)
  | .obj _, .arr _ => isFalse (by simp)
/-- Equality of two lists of JSON values is decidable. -/
def Json.decEqList : (a b : List Json) → Decidable (a = b)
  | [], [] => isTrue rfl
  | [], _ :: _ => isFalse (by simp)
  | _ :: _, [] => isFalse (by simp)
  | x :: xs, y :: ys =>
    @decidable_of_iff _ (x = y ∧ xs = ys) (by simp)
      (@instDecidableAnd _ _ (Json.decEq x y) (Json.decEqList xs ys))
/-- Equality of two member lists is decidable. -/
def Json.decEqFields : (a b : List (JsString × Json)) → Decidable (a = b)
  | [], [] => isTrue rfl
  | [], _ :: _ => isFalse (by simp)
  | _ :: _, [] => isFalse (by simp)
  | (k, x) :: xs, (k2, y) :: ys =>
    @decidable_of_iff _ (k = k2 ∧ x = y ∧ xs = ys) (by simp [and_assoc])
      (@instDecidableAnd _ _ _
        (@instDecidableAnd _ _ (Json.decEq x y) (Json.decEqFields xs ys)))
end

instance : DecidableEq Json := Json.decEq

/-- Whether a parsed object has an own member named `toString`. Such a member
is never callable, so converting the object to a string finds neither a
callable `toString` nor a primitive from `valueOf`, and throws a `TypeError`. -/
def hasOwnToString (fields : List (JsString × Json)) : Bool :=
  fields.any (fun kv => kv.1 == "toString".toList)

mutual
/-- The conversion `String(v)` of a JSON value; `none` is a thrown `TypeError`.
An array joins the renderings of its items with commas (`null` items render as
nothing); an object is `[object Object]` unless it has an own `toString`
member, in which case the conversion throws. -/
def Json.toJsString : Json → Option JsString
  | .null => some "null".toList
  | .bool b => some (if b then "true".toList else "false".toList)
  | .num _ shown => some shown
  | .str s => some s
  | .arr items => Json.joinItems items
  | .obj fields => if hasOwnToString fields then none else some "[object Object]".toList
/-- The method `Array.prototype.join` with the default separator. -/
def Json.joinItems : List Json → Option JsString
  | [] => some []
  | [x] => Json.itemString x
  | x :: y :: rest =>
    match Json.itemString x, Json.joinItems (y :: rest) with
    | some first, some others => some (first ++ ',' :: others)
    | _, _ => none
/-- One item inside `join`: `null` gives the empty string. -/
def Json.itemString : Json → Option JsString
  | .null => some []
  | .bool b => some (if b then "true".toList else "false".toList)
  | .num _ shown => some shown
  | .str s => some s
  | .arr items => Json.joinItems items
  | .obj fields => if hasOwnToString fields then none else some "[object Object]".toList
end

/-- A JavaScript value read out of a reply: `none` is `undefined`. -/
abbrev JsVal := Option Json

/-- Whether the left operand of `??` is `null` or `undefined`. -/
def JsVal.isNullish : JsVal → Bool
  | none => true
  | some .null => true
  | _ => false

/-- JavaScript truthiness (`ToBoolean`). -/
def JsVal.truthy : JsVal → Bool
  | none => false
  | some .null => false
  | some (.bool b) => b
  | some (.num isZero _) => !isZero
  | some (.str s) => !s.isEmpty
  | some (.arr _) => true
  | some (.obj _) => true

/-- Lookup of `key` among the members of a parsed object; of duplicate names
in the JSON text `JSON.parse` keeps the last. -/
def lookupField (fields : List (JsString × Json)) (key : JsString) : JsVal :=
  match fields.reverse.find? (fun kv => kv.1 == key) with
  | some kv => some kv.2
  | none => none

/-- The property read `v.key` for the names the reply handlers read from a
reply (`response`, `answer`, `short`, `text`, `message`, `cta`,
`action_buttons`, `type`, `url`, `phone`, `action`), none of which is
inherited from a prototype: a `TypeError` (`none`) on `null` and `undefined`,
the member on an object, `undefined` on every other value. -/
def getProp (v : JsVal) (key : JsString) : Option JsVal :=
  match v with
  | none => none
  | some .null => none
  | some (.obj fields) => some (lookupField fields key)
  | some _ => some none

/-- The conversion `String(v)`, which the concatenation `'tel:' + v` applies
too (with either hint an object ends at its `toString`); `none` is a thrown
`TypeError`. -/
def jsStringOf : JsVal → Option JsString
  | none => some "undefined".toList
  | some v => v.toJsString

/-- What an assignment to `textContent` stores: nothing for `null` and
`undefined`, else `String(v)`; `none` is the `TypeError` thrown by that
conversion. -/
def domString : JsVal → Option JsString
  | none => some []
  | some .null => some []
  | some v => v.toJsString

/-! ## Transcript and widget state -/

/-- The `type` argument of `cesiAppendMessage`; every call site passes
`'user'` or `'bot'`. -/
inductive Speaker
  | user
  | bot
  deriving DecidableEq, Repr

/-- The `a.cesi-booking-button` element built by `renderCTA` (lines 743-775). -/
structure CtaButton where
  textContent : JsString
  href : JsString
  targetBlank : Bool
  clickStartsBooking : Bool
  icon : JsString
  deriving DecidableEq, Repr

/-- One `button.cesi-action-button` built by `renderActionButtons`. -/
structure ActionButton where
  textContent : JsString
  /-- The value `buttonData.action` that the click hands to `cesiSendAction`. -/
  action : JsVal
  deriving DecidableEq

/-- A child `div` of a turn's `.cesi-message-content` wrapper. -/
inductive Control
  /-- The `div` holding the `a.cesi-booking-button` of `renderCTA`. -/
  | cta (btn : CtaButton)
  /-- The `div` holding the `button.cesi-booking-button` of the inactivity nudge. -/
  | nudgeButton
  /-- The `div` holding the buttons of `renderActionButtons`. -/
  | actionButtons (btns : List ActionButton)
  /-- The `phoneInputContainer` of `cesiAppendMessage`. -/
  | phoneCapture (pc : PhoneCapture)
  deriving DecidableEq

/-- Whether the control contains an element of class `cesi-booking-button`. -/
def Control.isBookingButton : Control → Bool
  | .cta _ => true
  | .nudgeButton => true
  | _ => false

/-- Whether the control contains the phone `input` (placeholder
`+7(___) ___-__-__`, which matches `input[placeholder*="+7"]`). -/
def Control.isPhoneCapture : Control → Bool
  | .phoneCapture _ => true
  | _ => false

/-- A child of `.cesi-chat-messages`: a `div` of class `cesi-message <type>`
(plus `cesi-typing-indicator` for the composing placeholder) whose
`.cesi-message-content` wrapper holds the text and then the controls. -/
structure Turn where
  speaker : Speaker
  /-- Whether the element has class `cesi-typing-indicator`. -/
  typing : Bool
  text : JsString
  controls : List Control
  deriving DecidableEq

/-- The object `{ message, session_id }` serialised into the body of one
`fetch(config.serverUrl + '/chat')`. -/
structure Request where
  /-- The message: a string, or for an action button whatever its `action` is. -/
  message : JsVal
  session_id : JsString
  deriving DecidableEq

/-- What a pending `setTimeout` will run. -/
inductive TimerKind
  /-- The greeting callback of `cesiToggleChat` (lines 575-579). -/
  | greeting
  /-- The callback of `cesiResetInactivityTimer` (lines 1113-1115). -/
  | inactivity
  deriving DecidableEq

/-- A timeout that is armed: set, and neither fired nor cleared yet. -/
structure Timer where
  /-- The handle that `setTimeout` returned. -/
  id : Nat
  kind : TimerKind
  /-- The delay in milliseconds. -/
  delay : Nat
  deriving DecidableEq

/-- The globals of lines 541-546 that the modelled functions read or write
(`cesiLastActivity` is only ever written), the armed timeouts, the children of
`.cesi-chat-messages`, whether the static `.cesi-action-buttons` panel has
class `hidden`, and the `fetch` calls issued so far. -/
structure Widget where
  cesiChatOpen : Bool
  cesiMessageCount : Nat
  cesiUserMessageCount : Nat
  cesiSessionId : JsString
  /-- The handle in `window.cesiInactivityTimer`; `none` is `null`. -/
  cesiInactivityTimer : Option Nat
  timers : List Timer
  /-- The handle the next `setTimeout` returns; handles are positive and fresh. -/
  nextTimerId : Nat
  actionButtonsHidden : Bool
  transcript : List Turn
  requests : List Request
  deriving DecidableEq

/-- The state right after the script has run (lines 541-544, empty
`.cesi-chat-messages`); `sessionId` stands for `'session_' + Date.now()`. -/
def Widget.initial (sessionId : JsString) : Widget :=
  { cesiChatOpen := false
    cesiMessageCount := 0
    cesiUserMessageCount := 0
    cesiSessionId := sessionId
    cesiInactivityTimer := none
    timers := []
    nextTimerId := 1
    actionButtonsHidden := false
    transcript := []
    requests := [] }

/-- The call `s.includes(sub)`. -/
def includes (s sub : JsString) : Bool := s.tails.any (fun t => sub.isPrefixOf t)

/-- The user-turn cleanup of `cesiAppendMessage` (lines 1003-1020) on one turn:
every `.cesi-booking-button` sits inside a `.cesi-message-content`, so its
closest `div` (the control) is removed; likewise the closest `div` of every
phone input. -/
def Turn.dropStaleControls (t : Turn) : Turn :=
  { t with
    controls := (t.controls.filter (fun c => !c.isBookingButton)).filter
      (fun c => !c.isPhoneCapture) }

/-- `window.cesiAppendMessage = function(type, text)` (lines 822-1022). The
`setTimeout` that focuses the phone input and the scrolling change nothing
that is modelled. -/
def cesiAppendMessage (type : Speaker) (text : JsString) (s : Widget) : Widget :=
  let controls :=
    if type = .bot ∧ (includes text "номер телефона".toList || includes text "телефон".toList)
    then [Control.phoneCapture newPhoneCapture] else []
  let messageDiv : Turn := { speaker := type, typing := false, text := text, controls := controls }
  let s := { s with transcript := s.transcript ++ [messageDiv] }
  if type = .user then
    { s with
      cesiMessageCount := s.cesiMessageCount + 1
      cesiUserMessageCount := s.cesiUserMessageCount + 1
      transcript := s.transcript.map Turn.dropStaleControls }
  else s

/-- The placeholder turn of `cesiShowTypingIndicator`. -/
def typingDiv : Turn := { speaker := .bot, typing := true, text := [], controls := [] }

/-- `window.cesiShowTypingIndicator` (lines 1140-1160). -/
def cesiShowTypingIndicator (s : Widget) : Widget :=
  { s with transcript := s.transcript ++ [typingDiv] }

/-- Removal of the first element that `document.querySelector` finds. -/
def removeFirst (p : Turn → Bool) : List Turn → List Turn
  | [] => []
  | t :: ts => if p t then ts else t :: removeFirst p ts

/-- `window.cesiHideTypingIndicator` (lines 1162-1167). -/
def cesiHideTypingIndicator (s : Widget) : Widget :=
  { s with transcript := removeFirst (fun t => t.typing) s.transcript }

/-- `window.cesiSendPhoneToServer` up to the `fetch` call (lines 1050-1064). -/
def cesiSendPhoneToServer (phoneNumber : JsString) (s : Widget) : Widget :=
  let s := cesiShowTypingIndicator s
  { s with
    requests := s.requests ++
      [{ message := some (.str phoneNumber), session_id := s.cesiSessionId }] }

/-- The body shared by the two submit handlers of a phone-capture control whose
input holds `pc.value`. After `cesiAppendMessage('user', ...)` the control is
already detached (the cleanup removes every phone input's container), so
`phoneInput.value = ''` and `phoneInputContainer.remove()` change nothing in
the transcript. -/
def phoneSubmit (pc : PhoneCapture) (s : Widget) : Widget :=
  match attachPhoneMask.getE164 pc with
  | some phone => cesiSendPhoneToServer phone (cesiAppendMessage .user pc.value s)
  | none => s

/-- The `keypress` listener of the phone input (lines 913-925). -/
def phoneInputKeypress (key : JsString) (pc : PhoneCapture) (s : Widget) : Widget :=
  if key = "Enter".toList then phoneSubmit pc s else s

/-- The `click` listener of the send button (lines 964-974). -/
def sendButtonClick (pc : PhoneCapture) (s : Widget) : Widget :=
  phoneSubmit pc s

/-! ## Timers, opening and closing, sending -/

/-- The call `setTimeout(callback, delay)`: the state with the timeout armed,
and its handle. -/
def setTimeout (kind : TimerKind) (delay : Nat) (s : Widget) : Widget × Nat :=
  ({ s with
      timers := s.timers ++ [{ id := s.nextTimerId, kind := kind, delay := delay }]
      nextTimerId := s.nextTimerId + 1 },
    s.nextTimerId)

/-- The call `clearTimeout(id)`. -/
def clearTimeout (id : Nat) (s : Widget) : Widget :=
  { s with timers := s.timers.filter (fun t => t.id != id) }

/-- The statement `if (window.cesiInactivityTimer) clearTimeout(...)` of lines
564-566 and 1108-1110; a handle is truthy unless it is `null` or `0`. -/
def clearInactivityTimer (s : Widget) : Widget :=
  match s.cesiInactivityTimer with
  | some id => if id ≠ 0 then clearTimeout id s else s
  | none => s

/-- `window.cesiResetInactivityTimer` (lines 1104-1116). -/
def cesiResetInactivityTimer (s : Widget) : Widget :=
  let s := clearInactivityTimer s
  let (s, id) := setTimeout .inactivity 30000 s
  { s with cesiInactivityTimer := some id }

/-- The greeting of line 576. -/
def greetingText : JsString :=
  "Здравствуйте! 👋\n\nЯ ассистент клиники ЦЭСИ.\n\nРасскажу, как проходит лечение, имплантация, и отвечу на любые вопросы по стоматологии.\n\nС чего начнём?".toList

/-- `window.cesiToggleChat` (lines 549-585); the `display` styles are not
modelled. -/
def cesiToggleChat (s : Widget) : Widget :=
  if s.cesiChatOpen then
    clearInactivityTimer { s with cesiChatOpen := false }
  else
    let s := { s with cesiChatOpen := true }
    if s.cesiMessageCount = 0 then (setTimeout .greeting 500 s).1
    else cesiResetInactivityTimer s

/-- The callback armed on line 575. -/
def greetingCallback (s : Widget) : Widget :=
  cesiResetInactivityTimer (cesiAppendMessage .bot greetingText s)

/-- The text of the nudge turn (line 1125). -/
def nudgeText : JsString :=
  "Есть вопросы? Запишитесь на консультацию и получите скидку 30% на КТ по промокоду «Чат»".toList

/-- `window.cesiShowInactivityMessage` (lines 1118-1133). -/
def cesiShowInactivityMessage (s : Widget) : Widget :=
  if !s.cesiChatOpen then s
  else
    { s with
      transcript := s.transcript ++
        [{ speaker := .bot, typing := false, text := nudgeText, controls := [.nudgeButton] }] }

/-- An armed timeout fires: it leaves the armed set and its callback runs.
Nothing happens for a handle that is not armed. -/
def timerFires (id : Nat) (s : Widget) : Widget :=
  match s.timers.find? (fun t => t.id == id) with
  | none => s
  | some t =>
    let s := { s with timers := s.timers.filter (fun t => t.id != id) }
    match t.kind with
    | .greeting => greetingCallback s
    | .inactivity => cesiShowInactivityMessage s

/-- `window.cesiHideActionButtons` (lines 588-593). -/
def cesiHideActionButtons (s : Widget) : Widget :=
  { s with actionButtonsHidden := true }

/-- The characters that `String.prototype.trim` strips: the white space and
line terminator code points of ECMAScript. -/
def isTrimmed (c : Char) : Bool :=
  c.val = 0x9 || c.val = 0xA || c.val = 0xB || c.val = 0xC || c.val = 0xD ||
  c.val = 0x20 || c.val = 0xA0 || c.val = 0x1680 ||
  (0x2000 ≤ c.val && c.val ≤ 0x200A) ||
  c.val = 0x2028 || c.val = 0x2029 || c.val = 0x202F || c.val = 0x205F ||
  c.val = 0x3000 || c.val = 0xFEFF

/-- The call `s.trim()`. -/
def trim (s : JsString) : JsString :=
  ((s.dropWhile isTrimmed).reverse.dropWhile isTrimmed).reverse

/-- `window.cesiSendMessage` up to the `fetch` call (lines 595-624), with the
value of the chat input as argument; emptying that input is not modelled. -/
def cesiSendMessage (inputValue : JsString) (s : Widget) : Widget :=
  let message := trim inputValue
  if !message.isEmpty then
    let s := cesiAppendMessage .user message s
    let s := cesiResetInactivityTimer s
    let s := cesiHideActionButtons s
    let s := cesiShowTypingIndicator s
    { s with
      requests := s.requests ++
        [{ message := some (.str message), session_id := s.cesiSessionId }] }
  else s

/-- `window.cesiHandleKeyPress` (lines 663-667). -/
def cesiHandleKeyPress (key : JsString) (inputValue : JsString) (s : Widget) : Widget :=
  if key = "Enter".toList then cesiSendMessage inputValue s else s

/-- `window.cesiSendAction` up to the `fetch` call (lines 669-693). The user
turn shows what `textContent = action` stores; when that assignment throws
(line 830, before the turn is attached) the function ends there and the state
is as it was. -/
def cesiSendAction (action : JsVal) (s : Widget) : Widget :=
  match domString action with
  | none => s
  | some text =>
    let s := cesiAppendMessage .user text s
    let s := cesiResetInactivityTimer s
    let s := cesiHideActionButtons s
    let s := cesiShowTypingIndicator s
    { s with requests := s.requests ++ [{ message := action, session_id := s.cesiSessionId }] }

/-- The `click` listener of a rendered action button (lines 810-812). -/
def actionButtonClick (b : ActionButton) (s : Widget) : Widget :=
  cesiSendAction b.action s

/-! ## Transport: replies and the promise chain -/

/-- The expression of lines 638, 707 and 1077,
`data.response ?? (data.answer && data.answer.short) ?? data.text ?? data.message ?? ''`,
evaluated left to right with the short-circuits of `??` and `&&`; `none` is a
thrown `TypeError`. -/
def replyText (data : JsVal) : Option JsVal := do
  let response ← getProp data "response".toList
  if !response.isNullish then return response
  let answer ← getProp data "answer".toList
  let guarded ← if answer.truthy then getProp answer "short".toList else pure answer
  if !guarded.isNullish then return guarded
  let text ← getProp data "text".toList
  if !text.isNullish then return text
  let message ← getProp data "message".toList
  if !message.isNullish then return message
  return some (.str [])

/-- The reply text as the specification words it: the first of `response`,
`answer.short`, `text`, `message` that is present (neither missing nor
`null`), else the empty text. -/
def replyTextSpec (fields : List (JsString × Json)) : Json :=
  let present (v : JsVal) : Option Json := if v.isNullish then none else v
  let answerShort : JsVal :=
    match lookupField fields "answer".toList with
    | some (.obj inner) => lookupField inner "short".toList
    | _ => none
  ((present (lookupField fields "response".toList)).orElse fun _ =>
    (present answerShort).orElse fun _ =>
    (present (lookupField fields "text".toList)).orElse fun _ =>
    present (lookupField fields "message".toList)).getD (.str [])

/-- What the first `.then` callback sees of a response (lines 625-633). -/
structure Response where
  /-- The property `resp.status`. -/
  status : Nat
  /-- Whether the lower-cased `content-type` header includes `application/json`. -/
  jsonContentType : Bool
  /-- What `resp.json()` resolves to; `none` when it rejects. -/
  json : Option Json
  /-- What `resp.text()` resolves to. -/
  text : JsString

/-- The property `resp.ok`: the status is in the range 200-299. -/
def Response.ok (resp : Response) : Bool := 200 ≤ resp.status && resp.status ≤ 299

/-- How the promise returned by `fetch` settles. -/
inductive FetchResult
  /-- A network failure: the promise rejects. -/
  | rejected
  /-- A response arrived, with whatever status. -/
  | resolved (resp : Response)

/-- The first `.then` callback (lines 625-633): the `data` handed to the next
callback, or `none` when the chain is rejected. -/
def responseData (r : FetchResult) : Option JsVal :=
  match r with
  | .rejected => none
  | .resolved resp =>
    if !resp.ok then none
    else if resp.jsonContentType then resp.json.map some
    else some (some (.obj [("response".toList, .str resp.text)]))

/-- The fixed text of the three `.catch` callbacks (lines 658, 727, 1097). -/
def apologyText : JsString :=
  "Извините, произошла ошибка. Попробуйте еще раз или позвоните нам по телефону +7(4152) 44-24-24".toList

/-- The `.catch` callback (lines 654-659, 723-728, 1093-1098). -/
def onTransportError (s : Widget) : Widget :=
  cesiAppendMessage .bot apologyText (cesiHideTypingIndicator s)

/-- The `.then(...).then(...).catch(...)` chain hung on each `fetch` (the same
in `cesiSendMessage`, `cesiSendAction` and `cesiSendPhoneToServer`), run on
how the `fetch` settled. `onData` is the second `.then` callback; it returns
the state it leaves and whether it threw. -/
def settle (onData : JsVal → Widget → Widget × Bool) (r : FetchResult) (s : Widget) : Widget :=
  match responseData r with
  | none => onTransportError s
  | some data =>
    let (s, threw) := onData data s
    if threw then onTransportError s else s

/-- The element that `messagesContainer.querySelector('.cesi-message.bot:last-child')`
finds (lines 737 and 792): turns are the only elements of these classes, so it
is the last child of the transcript when that child has class `bot` (the
composing placeholder has it too), and `null` otherwise. -/
def lastBotMessage (ts : List Turn) : Option Turn :=
  match ts.getLast? with
  | some t => if t.speaker = .bot then some t else none
  | none => none

/-- The statement `messageContent.appendChild(...)` on the element found by
`lastBotMessage`: the control becomes the last child of the last turn. -/
def appendToLast (c : Control) : List Turn → List Turn
  | [] => []
  | [t] => [{ t with controls := t.controls ++ [c] }]
  | t :: u :: rest => t :: appendToLast c (u :: rest)

/-- The comparison `v === 'literal'`. -/
def JsVal.isString (v : JsVal) (literal : JsString) : Bool :=
  match v with
  | some (.str s) => s == literal
  | _ => false

/-- The fixed text sent by `cesiStartBooking`, also the default label. -/
def bookingText : JsString := "Записаться на консультацию".toList

/-- The label that line 745 stores, `cta.text || 'Записаться на консультацию'`
assigned to `textContent`; `none` when the conversion of a truthy `cta.text`
throws. -/
def ctaLabel (text : JsVal) : Option JsString :=
  if text.truthy then domString text else some bookingText

/-- The icon of lines 768-774. -/
def ctaIcon (type : JsVal) : JsString :=
  if type.isString "call".toList then "📞".toList
  else if type.isString "link".toList then "🔗".toList
  else "📝".toList

/-- The button that `renderCTA` builds from a truthy `cta` (lines 743-775);
`none` is a thrown `TypeError`: the conversion of `cta.text` or of `cta.phone`
to a string, or `cta.url.startsWith` on a `url` that is not a string. -/
def ctaButton (cta : JsVal) : Option CtaButton := do
  let text ← getProp cta "text".toList
  let type ← getProp cta "type".toList
  let url ← getProp cta "url".toList
  let phone ← getProp cta "phone".toList
  let textContent ← ctaLabel text
  if type.isString "link".toList && url.truthy then
    match url with
    | some (.str u) =>
      some { textContent := textContent, href := u, targetBlank := "http".toList.isPrefixOf u,
             clickStartsBooking := false, icon := ctaIcon type }
    | _ => none
  else if type.isString "call".toList && phone.truthy then
    match jsStringOf phone with
    | some shown =>
      some { textContent := textContent, href := "tel:".toList ++ shown,
             targetBlank := false, clickStartsBooking := false, icon := ctaIcon type }
    | none => none
  else
    some { textContent := textContent, href := "#".toList, targetBlank := false,
           clickStartsBooking := true, icon := ctaIcon type }

/-- `window.renderCTA` (lines 732-784): the state it leaves and whether it threw. -/
def renderCTA (cta : JsVal) (s : Widget) : Widget × Bool :=
  if !cta.truthy then (s, false)
  else
    match lastBotMessage s.transcript with
    | none => (s, false)
    | some _ =>
      match ctaButton cta with
      | none => (s, true)
      | some btn => ({ s with transcript := appendToLast (.cta btn) s.transcript }, false)

/-- Truthiness of `actionButtons.length` for a truthy `actionButtons`. -/
def lengthTruthy : JsVal → Bool
  | some (.arr items) => !items.isEmpty
  | some (.str s) => !s.isEmpty
  | some (.obj fields) => (lookupField fields "length".toList).truthy
  | _ => false

/-- The buttons that the `forEach` of lines 805-815 builds; `none` is a thrown
`TypeError`: reading `buttonData.text` on a `null` item, or the conversion of
`buttonData.text` for `textContent`. -/
def actionButtonsOf : List Json → Option (List ActionButton)
  | [] => some []
  | item :: rest => do
    let text ← getProp (some item) "text".toList
    let textContent ← domString text
    let action ← getProp (some item) "action".toList
    let btns ← actionButtonsOf rest
    pure ({ textContent := textContent, action := action } :: btns)

/-- `window.renderActionButtons` (lines 787-820): the state it leaves and
whether it threw. Only an array has a `forEach` to call. -/
def renderActionButtons (actionButtons : JsVal) (s : Widget) : Widget × Bool :=
  if !actionButtons.truthy || !lengthTruthy actionButtons then (s, false)
  else
    match lastBotMessage s.transcript with
    | none => (s, false)
    | some _ =>
      match actionButtons with
      | some (.arr items) =>
        match actionButtonsOf items with
        | none => (s, true)
        | some btns =>
          ({ s with transcript := appendToLast (.actionButtons btns) s.transcript }, false)
      | _ => (s, true)

/-- The end of the second `.then` callback (lines 644-652):
`if (data.cta) renderCTA(data.cta); if (data.action_buttons) renderActionButtons(...)`,
the second statement reached only if the first did not throw. -/
def renderAttachments (cta actionButtons : JsVal) (s : Widget) : Widget × Bool :=
  let r := if cta.truthy then renderCTA cta s else (s, false)
  if r.2 then (r.1, true)
  else if actionButtons.truthy then renderActionButtons actionButtons r.1
  else (r.1, false)

/-- The statement `if (text) cesiAppendMessage('bot', String(text))` of lines
639, 708 and 1078; `none` when `String(text)` throws. -/
def appendReplyText (text : JsVal) (s : Widget) : Option Widget :=
  if text.truthy then
    match jsStringOf text with
    | some shown => some (cesiAppendMessage .bot shown s)
    | none => none
  else some s

/-- The second `.then` callback (lines 634-653, 703-722, 1073-1092): the state
it leaves and whether it threw. -/
def onReplyData (data : JsVal) (s : Widget) : Widget × Bool :=
  let s := cesiHideTypingIndicator s
  match replyText data with
  | none => (s, true)
  | some text =>
    match appendReplyText text s with
    | none => (s, true)
    | some s =>
      let s := cesiResetInactivityTimer s
      match getProp data "cta".toList, getProp data "action_buttons".toList with
      | some cta, some actionButtons => renderAttachments cta actionButtons s
      | _, _ => (s, true)

/-- `window.cesiStartBooking` (lines 1027-1030), which the click on a `book`
button calls, and `window.cesiStartBookingFromInactivity` (lines 1135-1137),
which the click on the nudge's button calls. -/
def cesiStartBooking (s : Widget) : Widget :=
  cesiSendAction (some (.str bookingText)) s

/-- `window.cesiStartBookingFromAction` (lines 1033-1038). -/
def cesiStartBookingFromAction (s : Widget) : Widget :=
  cesiSendAction (some (.str bookingText)) (cesiHideActionButtons s)

/-- What can happen to the widget after the script has run. -/
inductive Event
  /-- A click on the launcher or the close button: `cesiToggleChat()`. -/
  | toggle
  /-- A click on the send button of the chat input holding `inputValue`. -/
  | send (inputValue : JsString)
  /-- A key pressed in the chat input holding `inputValue`. -/
  | keyPress (key inputValue : JsString)
  /-- A click that ends in `cesiSendAction(action)`: an action button, a
  `book` button, the nudge's button, a button of the static panel. -/
  | action (action : JsVal)
  /-- A click on the first button of the static panel. -/
  | bookFromPanel
  /-- A submit of a phone-capture control whose input is in state `pc`. -/
  | phone (pc : PhoneCapture)
  /-- The armed timeout with this handle fires. -/
  | timeout (id : Nat)
  /-- A `fetch` settles and its promise chain runs. -/
  | settled (r : FetchResult)

/-- One event handled. -/
def step (s : Widget) : Event → Widget
  | .toggle => cesiToggleChat s
  | .send inputValue => cesiSendMessage inputValue s
  | .keyPress key inputValue => cesiHandleKeyPress key inputValue s
  | .action action => cesiSendAction action s
  | .bookFromPanel => cesiStartBookingFromAction s
  | .phone pc => phoneSubmit pc s
  | .timeout id => timerFires id s
  | .settled r => settle onReplyData r s

/-- The state after the events, in order, from the script's initial state. -/
def run (sessionId : JsString) (events : List Event) : Widget :=
  events.foldl step (Widget.initial sessionId)

/-- A concrete successful reply used in the examples: JSON carrying a session
identifier, a text and a `book` call-to-action. -/
def sampleReply : FetchResult :=
  .resolved
    { status := 200
      jsonContentType := true
      json := some (.obj [("session_id".toList, .str "srv_42".toList),
        ("response".toList, .str "Приходите на консультацию".toList),
        ("cta".toList, .obj [("type".toList, .str "book".toList)])])
      text := [] }

/-- A concrete run used in the examples: the widget is opened, the greeting
fires, the user sends a first message and `sampleReply` arrives. -/
def sampleConversation : List Event :=
  [.toggle, .timeout 1, .send "Привет".toList, .settled sampleReply]

/-- A concrete state used in the examples: the widget has been opened and the
greeting has fired. -/
def openedState : Widget := run "session_1".toList [.toggle, .timeout 1]

/-- A concrete `cta` descriptor used in the examples: `{"type": "book"}`. -/
def bookCta : JsVal := some (.obj [("type".toList, .str "book".toList)])

/-- A concrete `action_buttons` list used in the examples:
`[{"text": "Цены", "action": "Посмотреть цены"}]`. -/
def priceButtons : JsVal :=
  some (.arr [.obj [("text".toList, .str "Цены".toList),
    ("action".toList, .str "Посмотреть цены".toList)]])

/-- A concrete successful reply used in the examples: JSON with a `cta` and no
text. -/
def ctaOnlyReply : FetchResult :=
  .resolved
    { status := 200
      jsonContentType := true
      json := some (.obj [("cta".toList, .obj [("type".toList, .str "book".toList)])])
      text := [] }

/-- What the transport sees of a state: the session identifier and the
requests issued so far. -/
def Widget.wire (s : Widget) : JsString × List Request := (s.cesiSessionId, s.requests)

/-- What the scheduler sees of a state: the armed timeouts, the next handle
and the handle stored in `window.cesiInactivityTimer`. -/
def Widget.clock (s : Widget) : List Timer × Nat × Option Nat :=
  (s.timers, s.nextTimerId, s.cesiInactivityTimer)

/-- The armed timeouts that will run `cesiShowInactivityMessage`. -/
def inactivityTimers (timers : List Timer) : List Timer :=
  timers.filter (fun t => t.kind == .inactivity)

/-- The armed inactivity timeouts of a state. -/
def armedInactivity (s : Widget) : List Timer := inactivityTimers s.timers

/-- The scheduler's invariant: handles are positive, and every armed
inactivity timeout is the one whose handle `window.cesiInactivityTimer` holds;
there is at most one. -/
def TimerInv (c : List Timer × Nat × Option Nat) : Prop :=
  0 < c.2.1 ∧
  (∀ t ∈ inactivityTimers c.1, t.id ≠ 0 ∧ c.2.2 = some t.id) ∧
  (inactivityTimers c.1).length ≤ 1

/-- How many controls satisfying `p` the transcript holds, over all turns. -/
def countControls (p : Control → Bool) (ts : List Turn) : Nat :=
  (ts.map (fun t => (t.controls.filter p).length)).sum

/-- The number of live call-to-action attachments: the elements of class
`cesi-booking-button` in the transcript. -/
def ctaCount (s : Widget) : Nat := countControls Control.isBookingButton s.transcript

/-- The number of phone-capture controls in the transcript. -/
def phoneCaptureCount (s : Widget) : Nat := countControls Control.isPhoneCapture s.transcript

/-- The number of user turns in the transcript: its children of class
`cesi-message user`. -/
def userTurnCount (s : Widget) : Nat :=
  s.transcript.countP (fun t => t.speaker == Speaker.user)

/-- The number of composing placeholders in the transcript. -/
def typingCount (s : Widget) : Nat := (s.transcript.filter (fun t => t.typing)).length

/-- A click on the `a.cesi-booking-button` of `renderCTA`: the listener of lines
759-762 (`e.preventDefault(); cesiStartBooking()`) when the button has one;
otherwise the browser follows `href`, which calls no function of the widget. -/
def ctaClick (b : CtaButton) (s : Widget) : Widget :=
  if b.clickStartsBooking then cesiStartBooking s else s

/-- The state with `window.cesiChatOpen` set to `b`. -/
def Widget.withOpen (b : Bool) (s : Widget) : Widget := { s with cesiChatOpen := b }

/-- A concrete run used in the examples: the widget is opened, the greeting
fires, the user sends a first message and closes the widget while the request
is in flight. -/
def closedWhileInFlight : List Event :=
  [.toggle, .timeout 1, .send "Привет".toList, .toggle]

/-- Whether a descriptor's `url` is what the interface allows: missing,
`null`, or a string. -/
def JsVal.isTextOrAbsent : JsVal → Bool
  | none => true
  | some .null => true
  | some (.str _) => true
  | _ => false

/-- A concrete `cta` descriptor used in the examples:
`{"type": "link", "text": "Цены", "url": "https://dental41.ru/price"}`. -/
def linkCtaFields : List (JsString × Json) :=
  [("type".toList, .str "link".toList), ("text".toList, .str "Цены".toList),
    ("url".toList, .str "https://dental41.ru/price".toList)]

/-- A concrete `cta` descriptor used in the examples, a link whose url is a
number: `{"type": "link", "url": 5}`. -/
def numericUrlCta : JsVal :=
  some (.obj [("type".toList, .str "link".toList), ("url".toList, .num false "5".toList)])

/-- A concrete `cta` descriptor used in the examples, of kind `book` with a
label that has no string conversion: `{"type": "book", "text": {"toString": 1}}`. -/
def unprintableTextCta : JsVal :=
  some (.obj [("type".toList, .str "book".toList),
    ("text".toList, .obj [("toString".toList, .num false "1".toList)])])

/-- A concrete successful reply used in the examples: JSON carrying a text and
the descriptor `numericUrlCta`. -/
def numericUrlReply : FetchResult :=
  .resolved
    { status := 200
      jsonContentType := true
      json := some (.obj [("response".toList, .str "Наши цены".toList),
        ("cta".toList, .obj [("type".toList, .str "link".toList),
          ("url".toList, .num false "5".toList)])])
      text := [] }

/-- Whether the call failed as the specification counts it: a network
failure, or a response with a non-success status. -/
def FetchResult.failed : FetchResult → Bool
  | .rejected => true
  | .resolved resp => !resp.ok

/-- The reference normalisation in the specification's words: strip the
non-digits; a leading `8` becomes `7`; before a leading `9` a `7` is put;
otherwise a `7` is put in front unless the sequence starts with `7`; the first
11 digits are kept. -/
def normalizeSpec (v : JsString) : JsString :=
  let d := v.filter Char.isDigit
  let d :=
    if d.head? = some '8' then '7' :: d.tail
    else if d.head? = some '9' then '7' :: d
    else if d.head? = some '7' then d
    else '7' :: d
  d.take 11

/-- A concrete run used in the examples: the bot asks for the phone number,
the user types `89991234567` into the control and clicks its send button, so
the composing indicator is shown and one request is in flight. -/
def phoneSentState : Widget :=
  sendButtonClick (phoneCaptureAfter [.input "89991234567".toList])
    (cesiAppendMessage .bot "Оставьте ваш номер телефона".toList
      (Widget.initial "session_1".toList))

open attachPhoneMask

/-! ## Phone mask: auxiliary facts -/

theorem slice_zero_of_length_le (d : JsString) (n : Nat) (h : d.length ≤ n) :
    slice d 0 n = d := by
  simp [slice, List.take_of_length_le h]

/-- The normalised digit string is `7` followed by at most ten digits. -/
theorem normalizedDigits_shape (v : JsString) :
    ∃ t : JsString, normalizedDigits v = '7' :: t ∧ t.length ≤ 10 ∧ ∀ c ∈ t, c.isDigit = true := by
  have hd : ∀ c ∈ digitsOnly v, c.isDigit = true := by
    intro c hc
    simpa using (List.mem_filter.mp hc).2
  unfold normalizedDigits
  generalize digitsOnly v = d at hd
  rcases d with _ | ⟨x, xs⟩
  · exact ⟨[], by decide, by decide, by simp⟩
  · have hxs : ∀ c ∈ xs, c.isDigit = true := fun c hc => hd c (List.mem_cons_of_mem _ hc)
    have hx : x.isDigit = true := hd x (List.mem_cons_self _ _)
    by_cases h8 : x = '8'
    · subst h8
      refine ⟨xs.take 10, ?_, by simp, fun c hc => hxs c (List.mem_of_mem_take hc)⟩
      simp [startsWith, slice]
    · by_cases h9 : x = '9'
      · subst h9
        refine ⟨('9' :: xs).take 10, ?_, by simp, ?_⟩
        · simp [startsWith, slice]
        · intro c hc
          exact hd c (List.mem_of_mem_take hc)
      · by_cases h7 : x = '7'
        · subst h7
          refine ⟨xs.take 10, ?_, by simp, fun c hc => hxs c (List.mem_of_mem_take hc)⟩
          simp [startsWith, slice]
        · refine ⟨(x :: xs).take 10, ?_, by simp, ?_⟩
          · simp [startsWith, slice, h8, h9, h7]
          · intro c hc
            exact hd c (List.mem_of_mem_take hc)

/-- A digit string that is already `7` plus at most ten digits is left alone. -/
theorem normalizedDigits_of_digits (x t : JsString) (hx : digitsOnly x = '7' :: t)
    (hl : t.length ≤ 10) : normalizedDigits x = '7' :: t := by
  unfold normalizedDigits
  rw [hx]
  have : ('7' :: t).length ≤ 11 := by simpa using hl
  simp [startsWith, slice, List.take_of_length_le hl]

/-- The digits of the assembled display string are the digit string itself. -/
theorem digitsOnly_assemble (t : JsString) (hl : t.length ≤ 10)
    (ht : ∀ c ∈ t, c.isDigit = true) :
    digitsOnly (assemble ('7' :: t)) = '7' :: t := by
  have h7 : Char.isDigit '7' = true := by decide
  have hp : Char.isDigit '+' = false := by decide
  have hs : Char.isDigit ' ' = false := by decide
  have ho : Char.isDigit '(' = false := by decide
  have hc : Char.isDigit ')' = false := by decide
  have hm : Char.isDigit '-' = false := by decide
  rcases t with _ | ⟨a1, _ | ⟨a2, _ | ⟨a3, _ | ⟨a4, _ | ⟨a5, _ | ⟨a6, _ | ⟨a7, _ | ⟨a8,
    _ | ⟨a9, _ | ⟨a10, _ | ⟨a11, r⟩⟩⟩⟩⟩⟩⟩⟩⟩⟩⟩
  all_goals first
    | (exfalso; simp at hl; done)
    | (simp only [List.mem_cons, List.mem_singleton, forall_eq_or_imp, forall_eq,
        List.not_mem_nil, false_imp_iff, implies_true, and_true] at ht
       simp [assemble, slice, joinParts, digitsOnly, List.filter, h7, hp, hs, ho, hc, hm, ht])

/-- The digits of `format v` are the normalised digits of `v`. -/
theorem digitsOnly_format (v : JsString) : digitsOnly (format v) = normalizedDigits v := by
  obtain ⟨t, ht, hl, hd⟩ := normalizedDigits_shape v
  rw [format, ht]
  exact digitsOnly_assemble t hl hd

/-- Formatting does not change the normalised digits. -/
theorem normalizedDigits_format (v : JsString) :
    normalizedDigits (format v) = normalizedDigits v := by
  obtain ⟨t, ht, hl, _⟩ := normalizedDigits_shape v
  have h := digitsOnly_format v
  rw [ht] at h
  rw [ht]
  exact normalizedDigits_of_digits (format v) t h hl

theorem exists_of_length_ten (t : JsString) (h : t.length = 10) :
    ∃ a b c d e f g h i j, t = [a, b, c, d, e, f, g, h, i, j] := by
  rcases t with _ | ⟨a1, _ | ⟨a2, _ | ⟨a3, _ | ⟨a4, _ | ⟨a5, _ | ⟨a6, _ | ⟨a7, _ | ⟨a8,
    _ | ⟨a9, _ | ⟨a10, _ | ⟨a11, r⟩⟩⟩⟩⟩⟩⟩⟩⟩⟩⟩
  all_goals first
    | exact ⟨_, _, _, _, _, _, _, _, _, _, rfl⟩
    | simp at h

/-- The display string of a complete number, as the code assembles it. -/
theorem format_of_eleven_digits (v : JsString) (a b c d e f g h i j : Char)
    (hv : normalizedDigits v = ['7', a, b, c, d, e, f, g, h, i, j]) :
    format v = ['+', '7', ' ', '(', a, b, c, ')', d, e, f, '-', g, h, '-', i, j] := by
  simp [format, hv, assemble, slice, joinParts]

theorem normalizeSpec_eq (v : JsString) : normalizeSpec v = normalizedDigits v := by
  unfold normalizeSpec normalizedDigits digitsOnly
  generalize v.filter Char.isDigit = d
  rcases d with _ | ⟨x, xs⟩
  · simp [startsWith, slice]
  · by_cases h8 : x = '8'
    · subst h8; simp [startsWith, slice]
    · by_cases h9 : x = '9'
      · subst h9; simp [startsWith, slice]
      · by_cases h7 : x = '7'
        · subst h7; simp [startsWith, slice]
        · simp [startsWith, slice, h8, h9, h7]

/-! ## Phone mask: the claims -/

/-- C1: for every raw input `v` the mask's `format` is idempotent,
`format (format v) = format v`; so every formatted number, complete or
partial, is a fixed point. -/
theorem format_idempotent (v : JsString) : format (format v) = format v := by
  show assemble (normalizedDigits (format v)) = assemble (normalizedDigits v)
  rw [normalizedDigits_format]

/-- C2: once the mask has formatted the input, `getE164` is non-null exactly
when the normalised digit string has 11 digits, and then it is `+` followed by
those digits: `+7`, then ten more digits, 12 characters in all; the raw input
`89991234567` gives `+79991234567`. -/
theorem getE164_iff_eleven_digits (pc : PhoneCapture) :
    ((getE164 (onInput pc)).isSome = true ↔ (normalizedDigits pc.value).length = 11) ∧
    getE164 (onInput pc) =
      (if (normalizedDigits pc.value).length = 11
        then some ('+' :: normalizedDigits pc.value) else none) ∧
    (match getE164 (onInput pc) with
      | none => True
      | some phone => phone.length = 12 ∧ phone.take 2 = ['+', '7']) ∧
    getE164 (onInput { pc with value := "89991234567".toList }) = some "+79991234567".toList := by
  have key : getE164 (onInput pc) =
      (if (normalizedDigits pc.value).length = 11
        then some ('+' :: normalizedDigits pc.value) else none) := by
    simp [getE164, onInput, toE164, isValid, digitsOnly_format]
  obtain ⟨t, ht, _, _⟩ := normalizedDigits_shape pc.value
  have ex : toE164 (format "89991234567".toList) = some "+79991234567".toList := by decide
  refine ⟨?_, key, ?_, ex⟩
  · rw [key]; split <;> simp_all
  · rw [key]; split
    next h => split at h <;> simp_all
    next phone h =>
      split at h
      · rename_i hlen
        simp only [Option.some.injEq] at h
        subst h
        simp [ht] at hlen ⊢
        omega
      · simp at h

/-- C3: on the raw input `89991234567`, whose normalised digits number 11, the
code returns `+7 (999)123-45-67`: no space follows the closing parenthesis, so
the result is not the display string `+7 (999) 123-45-67`. -/
theorem format_complete_lacks_space :
    normalizedDigits "89991234567".toList = "79991234567".toList ∧
    format "89991234567".toList = "+7 (999)123-45-67".toList ∧
    format "89991234567".toList ≠ "+7 (999) 123-45-67".toList := by
  decide

/-- C4, as stated, fails: on the raw input `91234567` the normalised digit
string does not have length 11. -/
theorem normalizedDigits_91234567_not_eleven :
    ¬ ((normalizedDigits "91234567".toList).length = 11 ∧
       startsWith (normalizedDigits "91234567".toList) '7' = true) := by
  decide

/-- C4, amended: on the raw input `91234567` the branches (8-replacement,
9-prepend, 7-prepend, truncation) give the digit string `791234567`, which
starts with `7` and has length 9. -/
theorem normalizedDigits_91234567 :
    normalizedDigits "91234567".toList = "791234567".toList ∧
    (normalizedDigits "91234567".toList).length = 9 ∧
    startsWith (normalizedDigits "91234567".toList) '7' = true := by
  decide

/-- C5: the digits contained in `format v` are the reference normalisation of
`v`, which always starts with `7` and has between 1 and 11 digits. -/
theorem digits_of_format_eq_normalizeSpec (v : JsString) :
    digitsOnly (format v) = normalizeSpec v ∧
    (normalizeSpec v).head? = some '7' ∧
    1 ≤ (normalizeSpec v).length ∧ (normalizeSpec v).length ≤ 11 := by
  obtain ⟨t, ht, hl, _⟩ := normalizedDigits_shape v
  rw [normalizeSpec_eq, digitsOnly_format, ht]
  simp
  omega

/-! ## Phone capture: the claims -/

theorem foldl_handle_keeps_enabled (events : List PhoneEvent) (pc : PhoneCapture)
    (hm : pc.maskHasSubmitBtn = false) (hd : pc.sendButtonDisabled = false) :
    (events.foldl PhoneCapture.handle pc).maskHasSubmitBtn = false ∧
    (events.foldl PhoneCapture.handle pc).sendButtonDisabled = false := by
  induction events generalizing pc with
  | nil => exact ⟨hm, hd⟩
  | cons e es ih =>
    simp only [List.foldl_cons]
    apply ih
    · cases e <;> simp [PhoneCapture.handle, PhoneCapture.inputEvent,
        PhoneCapture.blurEvent, onInput, hm]
    · cases e <;> simp [PhoneCapture.handle, PhoneCapture.inputEvent,
        PhoneCapture.blurEvent, onInput, hm, hd]

/-- C6: the code never disables the send button. A bot turn asking for the
phone number gets the fresh control, whose input holds `+7` (no canonical
form) while `sendButton.disabled` is `false`; and after any sequence of input
and blur events the flag is still `false`, whatever the input holds. -/
theorem phone_send_button_never_disabled :
    (cesiAppendMessage .bot "Оставьте ваш номер телефона".toList (Widget.initial [])).transcript =
      [{ speaker := .bot, typing := false, text := "Оставьте ваш номер телефона".toList,
         controls := [.phoneCapture newPhoneCapture] }] ∧
    newPhoneCapture.value = "+7".toList ∧
    getE164 newPhoneCapture = none ∧
    newPhoneCapture.sendButtonDisabled = false ∧
    (phoneCaptureAfter [.input "123".toList, .blur]).value = "+7 (123)".toList ∧
    getE164 (phoneCaptureAfter [.input "123".toList, .blur]) = none ∧
    ∀ events : List PhoneEvent, (phoneCaptureAfter events).sendButtonDisabled = false := by
  refine ⟨by decide, by decide, by decide, by decide, by decide, by decide, ?_⟩
  intro events
  exact (foldl_handle_keeps_enabled events newPhoneCapture (by decide) (by decide)).2

/-- C7: a submit of the phone-capture control, by click or by the Enter key,
does nothing at all when the input has no canonical form, and otherwise issues
exactly one request whose message is the canonical form. For a value the mask
has formatted, that message is `+7` followed by ten digits and differs from the
displayed string. -/
theorem phone_submit_sends_only_canonical (pc : PhoneCapture) (s : Widget) :
    (match getE164 pc with
      | none => sendButtonClick pc s = s ∧ phoneInputKeypress "Enter".toList pc s = s
      | some phone =>
        (sendButtonClick pc s).requests =
          s.requests ++ [{ message := some (.str phone), session_id := s.cesiSessionId }] ∧
        phoneInputKeypress "Enter".toList pc s = sendButtonClick pc s) ∧
    (match getE164 (onInput pc) with
      | none => True
      | some phone =>
        (∃ t : JsString, phone = '+' :: '7' :: t ∧ t.length = 10 ∧
          t.all Char.isDigit = true) ∧
        phone ≠ (onInput pc).value) := by
  constructor
  · cases h : getE164 pc with
    | none => simp [sendButtonClick, phoneInputKeypress, phoneSubmit, h]
    | some phone =>
      simp [sendButtonClick, phoneInputKeypress, phoneSubmit, h, cesiSendPhoneToServer,
        cesiShowTypingIndicator, cesiAppendMessage]
  · obtain ⟨t, ht, hl, hd⟩ := normalizedDigits_shape pc.value
    have key : getE164 (onInput pc) =
        (if (normalizedDigits pc.value).length = 11
          then some ('+' :: normalizedDigits pc.value) else none) := by
      simp [getE164, onInput, toE164, isValid, digitsOnly_format]
    rw [key]
    split
    next h => trivial
    next phone h =>
      split at h
      · rename_i hlen
        simp only [Option.some.injEq] at h
        subst h
        refine ⟨⟨t, by rw [ht], ?_, ?_⟩, ?_⟩
        · simpa [ht] using hlen
        · simpa using hd
        · intro heq
          have hlen17 : (format pc.value).length = 17 := by
            obtain ⟨a, b, c, d, e, f, g, h, i, j, rfl⟩ :=
              exists_of_length_ten t (by simpa [ht] using hlen)
            rw [format_of_eleven_digits pc.value a b c d e f g h i j ht]
            rfl
          have h12 := congrArg List.length heq
          simp only [onInput, List.length_cons, hlen, hlen17] at h12
          omega
      · simp at h

/-! ## Transport: the claims -/

theorem exists_of_not_nullish (v : JsVal) (h : v.isNullish = false) : ∃ x, v = some x := by
  cases v with
  | none => simp [JsVal.isNullish] at h
  | some x => exact ⟨x, rfl⟩

/-- The last two checks, `data.text ?? data.message ?? ''`, against the
specification's wording. -/
theorem replyText_tail (t m : JsVal) :
    (if (!t.isNullish) = true then some t
      else if (!m.isNullish) = true then some m else some (some (Json.str []))) =
    some (some (((if t.isNullish = true then none else t).orElse fun _ =>
      if m.isNullish = true then none else m).getD (Json.str []))) := by
  cases ht : t.isNullish
  · obtain ⟨x, rfl⟩ := exists_of_not_nullish t ht
    simp
  · cases hm : m.isNullish
    · obtain ⟨y, rfl⟩ := exists_of_not_nullish m hm
      simp
    · simp

/-- Unless `answer` is falsy without being `null` or `undefined`, the code
picks the reply text in the order the specification gives. -/
theorem replyText_eq_replyTextSpec (fields : List (JsString × Json))
    (h : (lookupField fields "answer".toList).isNullish = true ∨
      (lookupField fields "answer".toList).truthy = true) :
    replyText (some (.obj fields)) = some (some (replyTextSpec fields)) := by
  simp only [replyText, replyTextSpec, getProp, bind, Option.bind, pure]
  generalize lookupField fields "response".toList = r
  generalize lookupField fields "text".toList = t
  generalize lookupField fields "message".toList = m
  generalize lookupField fields "answer".toList = a at h
  have tail := replyText_tail t m
  cases hr : r.isNullish
  · obtain ⟨x, rfl⟩ := exists_of_not_nullish r hr
    simp
  · rcases a with _ | (_ | b | ⟨z, _⟩ | sa | _ | inner)
    · simpa [JsVal.isNullish, JsVal.truthy] using tail
    · simpa [JsVal.isNullish, JsVal.truthy] using tail
    · have hb : b = true := by simpa [JsVal.isNullish, JsVal.truthy] using h
      subst hb
      simpa [JsVal.isNullish, JsVal.truthy] using tail
    · have hz : z = false := by simpa [JsVal.isNullish, JsVal.truthy] using h
      subst hz
      simpa [JsVal.isNullish, JsVal.truthy] using tail
    · have hs : sa.isEmpty = false := by simpa [JsVal.isNullish, JsVal.truthy] using h
      simpa [JsVal.isNullish, JsVal.truthy, hs] using tail
    · simpa [JsVal.isNullish, JsVal.truthy] using tail
    · simp only [JsVal.truthy]
      generalize lookupField inner "short".toList = g
      cases hg : g.isNullish
      · obtain ⟨y, rfl⟩ := exists_of_not_nullish g hg
        simp
      · simpa [hg] using tail

/-- C8: on the reply `{"answer": "", "text": "hi"}` the fields `response` and
`answer.short` are absent, yet the code does not fall through to `text`: the
guard `data.answer && data.answer.short` yields the falsy `answer` itself, which
`??` keeps. The same happens for `"answer": false`. The specification's
order of checks gives `hi`. -/
theorem replyText_falsy_answer_blocks_text :
    replyText (some (.obj [("answer".toList, .str []), ("text".toList, .str "hi".toList)])) =
      some (some (.str [])) ∧
    replyText (some (.obj [("answer".toList, .bool false), ("text".toList, .str "hi".toList)])) =
      some (some (.bool false)) ∧
    replyTextSpec [("answer".toList, .str []), ("text".toList, .str "hi".toList)] =
      .str "hi".toList ∧
    replyTextSpec [("answer".toList, .bool false), ("text".toList, .str "hi".toList)] =
      .str "hi".toList := by
  refine ⟨?_, ?_, ?_, ?_⟩ <;> rfl

theorem removeFirst_of_single (ts : List Turn)
    (h : (ts.filter (fun t => t.typing)).length = 1) :
    removeFirst (fun t => t.typing) ts = ts.filter (fun t => !t.typing) ∧
    (removeFirst (fun t => t.typing) ts).filter (fun t => t.typing) = [] := by
  induction ts with
  | nil => simp at h
  | cons t ts ih =>
    by_cases ht : t.typing = true
    · have h0 : ts.filter (fun t => t.typing) = [] := by
        simpa [List.filter_cons, ht] using h
      have hall : ∀ x ∈ ts, x.typing = false := by
        intro x hx
        have := List.filter_eq_nil_iff.mp h0 x hx
        simpa using this
      have hself : ts.filter (fun t => !t.typing) = ts := by
        apply List.filter_eq_self.mpr
        intro x hx
        simp [hall x hx]
      simp [removeFirst, ht, List.filter_cons, hself, h0]
    · have ht2 : t.typing = false := by simpa using ht
      have h1 : (ts.filter (fun t => t.typing)).length = 1 := by
        simpa [List.filter_cons, ht2] using h
      obtain ⟨ih1, ih2⟩ := ih h1
      simp [removeFirst, ht2, List.filter_cons, ih1]

/-- C9: when a transport call fails (the `fetch` rejects, or the response has a
non-success status) while exactly one composing indicator is in the
transcript, the chain leaves the session identifier as it was, removes the
indicator and appends exactly one bot turn, the apology; no composing indicator
remains. -/
theorem failed_call_appends_one_apology (onData : JsVal → Widget → Widget × Bool)
    (r : FetchResult) (s : Widget) (hfail : r.failed = true)
    (hone : (s.transcript.filter (fun t => t.typing)).length = 1) :
    (settle onData r s).cesiSessionId = s.cesiSessionId ∧
    (∃ t : Turn, (settle onData r s).transcript =
        s.transcript.filter (fun t => !t.typing) ++ [t] ∧
      t.speaker = .bot ∧ t.typing = false ∧ t.text = apologyText) ∧
    (settle onData r s).transcript.filter (fun t => t.typing) = [] ∧
    (settle onData r s).requests = s.requests := by
  have hdata : responseData r = none := by
    cases r with
    | rejected => rfl
    | resolved resp =>
      have : resp.ok = false := by simpa [FetchResult.failed] using hfail
      simp [responseData, this]
  obtain ⟨h1, h2⟩ := removeFirst_of_single s.transcript hone
  have hsettle : settle onData r s = onTransportError s := by
    simp [settle, hdata]
  rw [hsettle]
  have hkw : includes apologyText ['т', 'е', 'л', 'е', 'ф', 'о', 'н'] = true := by decide
  refine ⟨rfl, ⟨Turn.mk .bot false apologyText [.phoneCapture newPhoneCapture],
    ?_, rfl, rfl, rfl⟩, ?_, rfl⟩
  · simp [onTransportError, cesiAppendMessage, cesiHideTypingIndicator, h1, hkw]
  · simp [onTransportError, cesiAppendMessage, cesiHideTypingIndicator, h2, hkw]

/-- C9 at a concrete input: the network fails while the phone number sent in
`phoneSentState` is in flight. -/
theorem failed_call_appends_one_apology_witness :
    FetchResult.rejected.failed = true ∧
    (phoneSentState.transcript.filter (fun t => t.typing)).length = 1 ∧
    ((settle (fun _ s => (s, false)) .rejected phoneSentState).cesiSessionId =
        phoneSentState.cesiSessionId ∧
      (∃ t : Turn, (settle (fun _ s => (s, false)) .rejected phoneSentState).transcript =
          phoneSentState.transcript.filter (fun t => !t.typing) ++ [t] ∧
        t.speaker = .bot ∧ t.typing = false ∧ t.text = apologyText) ∧
      (settle (fun _ s => (s, false)) .rejected phoneSentState).transcript.filter
        (fun t => t.typing) = [] ∧
      (settle (fun _ s => (s, false)) .rejected phoneSentState).requests =
        phoneSentState.requests) :=
  ⟨by decide, by decide,
    failed_call_appends_one_apology (fun _ s => (s, false)) .rejected phoneSentState
      (by decide) (by decide)⟩

/-- C10: the apology text contains `телефон`, so the phone-request check of
`cesiAppendMessage` fires on it: after a network failure (here while the phone
number of `phoneSentState` is in flight) the appended apology turn carries a
phone-capture control. -/
theorem apology_turn_gets_phone_capture :
    includes apologyText "телефон".toList = true ∧
    (settle (fun _ s => (s, false)) .rejected phoneSentState).transcript =
      [{ speaker := .bot, typing := false, text := "Оставьте ваш номер телефона".toList,
         controls := [] },
       { speaker := .user, typing := false, text := "+7 (999)123-45-67".toList,
         controls := [] },
       { speaker := .bot, typing := false, text := apologyText,
         controls := [.phoneCapture newPhoneCapture] }] := by
  constructor <;> decide

/-! ## Session identifier and requests -/

@[simp] theorem cesiAppendMessage_wire (type : Speaker) (text : JsString) (s : Widget) :
    (cesiAppendMessage type text s).wire = s.wire := by
  cases type <;> simp only [cesiAppendMessage, Widget.wire] <;> split <;> simp

@[simp] theorem cesiShowTypingIndicator_wire (s : Widget) :
    (cesiShowTypingIndicator s).wire = s.wire := rfl

@[simp] theorem cesiHideTypingIndicator_wire (s : Widget) :
    (cesiHideTypingIndicator s).wire = s.wire := rfl

@[simp] theorem cesiHideActionButtons_wire (s : Widget) :
    (cesiHideActionButtons s).wire = s.wire := rfl

@[simp] theorem clearInactivityTimer_wire (s : Widget) :
    (clearInactivityTimer s).wire = s.wire := by
  unfold clearInactivityTimer
  split
  · split <;> rfl
  · rfl

@[simp] theorem cesiResetInactivityTimer_wire (s : Widget) :
    (cesiResetInactivityTimer s).wire = s.wire := by
  have h := clearInactivityTimer_wire s
  simp only [Widget.wire, Prod.mk.injEq] at h
  simp [cesiResetInactivityTimer, setTimeout, Widget.wire, h]

@[simp] theorem cesiShowInactivityMessage_wire (s : Widget) :
    (cesiShowInactivityMessage s).wire = s.wire := by
  unfold cesiShowInactivityMessage
  split <;> rfl

@[simp] theorem renderCTA_wire (cta : JsVal) (s : Widget) :
    (renderCTA cta s).1.wire = s.wire := by
  unfold renderCTA
  split
  · rfl
  · split
    · rfl
    · split <;> rfl

@[simp] theorem renderActionButtons_wire (actionButtons : JsVal) (s : Widget) :
    (renderActionButtons actionButtons s).1.wire = s.wire := by
  unfold renderActionButtons
  split
  · rfl
  · split
    · rfl
    · split
      · split <;> rfl
      · rfl

@[simp] theorem onTransportError_wire (s : Widget) : (onTransportError s).wire = s.wire := by
  simp [onTransportError]

@[simp] theorem renderAttachments_wire (cta actionButtons : JsVal) (s : Widget) :
    (renderAttachments cta actionButtons s).1.wire = s.wire := by
  unfold renderAttachments
  by_cases hc : cta.truthy = true <;> simp only [hc, if_true, if_false]
  · by_cases ht : (renderCTA cta s).2 = true <;> simp only [ht, if_true, if_false]
    · simp
    · by_cases ha : actionButtons.truthy = true <;> simp [ha]
  · by_cases ha : actionButtons.truthy = true <;> simp [ha]

theorem appendReplyText_cases (text : JsVal) (s w : Widget)
    (h : appendReplyText text s = some w) :
    w = s ∨ ∃ shown : JsString, w = cesiAppendMessage .bot shown s := by
  unfold appendReplyText at h
  split at h
  · split at h
    · rename_i shown _
      simp only [Option.some.injEq] at h
      exact Or.inr ⟨shown, h.symm⟩
    · simp at h
  · simp only [Option.some.injEq] at h
    exact Or.inl h.symm

theorem appendReplyText_wire (text : JsVal) (s w : Widget)
    (h : appendReplyText text s = some w) : w.wire = s.wire := by
  rcases appendReplyText_cases text s w h with rfl | ⟨shown, rfl⟩
  · rfl
  · simp

@[simp] theorem onReplyData_wire (data : JsVal) (s : Widget) :
    (onReplyData data s).1.wire = s.wire := by
  unfold onReplyData
  dsimp only
  cases replyText data with
  | none => simp
  | some text =>
    dsimp only
    cases h : appendReplyText text (cesiHideTypingIndicator s) with
    | none => simp
    | some w =>
      have hw := appendReplyText_wire _ _ _ h
      cases getProp data "cta".toList with
      | none => simp [hw]
      | some cta =>
        cases getProp data "action_buttons".toList with
        | none => simp [hw]
        | some ab => simp [hw]

/-- The promise chain with the callback's result read through its projections. -/
theorem settle_eq (onData : JsVal → Widget → Widget × Bool) (r : FetchResult) (s : Widget) :
    settle onData r s =
      match responseData r with
      | none => onTransportError s
      | some data =>
        if (onData data s).2 = true then onTransportError (onData data s).1
        else (onData data s).1 := by
  unfold settle
  cases responseData r with
  | none => rfl
  | some data => rfl

@[simp] theorem settle_wire (r : FetchResult) (s : Widget) :
    (settle onReplyData r s).wire = s.wire := by
  rw [settle_eq]
  cases responseData r with
  | none => simp
  | some data =>
    simp only
    split <;> simp

@[simp] theorem cesiToggleChat_wire (s : Widget) : (cesiToggleChat s).wire = s.wire := by
  unfold cesiToggleChat
  split
  · rw [clearInactivityTimer_wire]; rfl
  · dsimp only
    split
    · rfl
    · rw [cesiResetInactivityTimer_wire]; rfl

@[simp] theorem timerFires_wire (id : Nat) (s : Widget) : (timerFires id s).wire = s.wire := by
  unfold timerFires
  split
  · rfl
  · dsimp only
    split
    · rw [greetingCallback, cesiResetInactivityTimer_wire, cesiAppendMessage_wire]; rfl
    · rw [cesiShowInactivityMessage_wire]; rfl

theorem wire_eq {a : Widget} {p : JsString × List Request} (h : a.wire = p) :
    a.cesiSessionId = p.1 ∧ a.requests = p.2 := by
  subst h
  exact ⟨rfl, rfl⟩

theorem cesiSendAction_wire (action : JsVal) (s : Widget) :
    (cesiSendAction action s).wire =
      (s.cesiSessionId,
        match domString action with
        | some _ => s.requests ++ [{ message := action, session_id := s.cesiSessionId }]
        | none => s.requests) := by
  unfold cesiSendAction
  cases domString action with
  | none => rfl
  | some text =>
    have h := wire_eq (cesiShowTypingIndicator_wire (cesiHideActionButtons
      (cesiResetInactivityTimer (cesiAppendMessage .user text s))))
    simp only [cesiHideActionButtons_wire, cesiResetInactivityTimer_wire,
      cesiAppendMessage_wire] at h
    have h2 := wire_eq (cesiHideActionButtons_wire
      (cesiResetInactivityTimer (cesiAppendMessage .user text s)))
    have h3 := wire_eq (cesiResetInactivityTimer_wire (cesiAppendMessage .user text s))
    have h4 := wire_eq (cesiAppendMessage_wire .user text s)
    simp only [Widget.wire, h.1, h.2, h2.1, h2.2, h3.1, h3.2, h4.1, h4.2]

theorem cesiSendMessage_wire (inputValue : JsString) (s : Widget) :
    (cesiSendMessage inputValue s).wire =
      (s.cesiSessionId,
        if (trim inputValue).isEmpty then s.requests
        else s.requests ++
          [{ message := some (.str (trim inputValue)), session_id := s.cesiSessionId }]) := by
  have h := wire_eq (cesiShowTypingIndicator_wire (cesiHideActionButtons
    (cesiResetInactivityTimer (cesiAppendMessage .user (trim inputValue) s))))
  have h2 := wire_eq (cesiHideActionButtons_wire
    (cesiResetInactivityTimer (cesiAppendMessage .user (trim inputValue) s)))
  have h3 := wire_eq (cesiResetInactivityTimer_wire
    (cesiAppendMessage .user (trim inputValue) s))
  have h4 := wire_eq (cesiAppendMessage_wire .user (trim inputValue) s)
  unfold cesiSendMessage
  by_cases he : (trim inputValue).isEmpty = true
  · simp [he, Widget.wire]
  · simp only [he, Bool.not_false, Bool.not_true, if_true, if_false, Widget.wire,
      h.1, h.2, h2.1, h2.2, h3.1, h3.2, h4.1, h4.2]
    simp [he]

theorem cesiSendPhoneToServer_wire (phone : JsString) (s : Widget) :
    (cesiSendPhoneToServer phone s).wire =
      (s.cesiSessionId,
        s.requests ++ [{ message := some (.str phone), session_id := s.cesiSessionId }]) := rfl

/-- One event keeps the session identifier and only appends requests that carry it. -/
theorem step_wire (s : Widget) (e : Event) :
    (step s e).cesiSessionId = s.cesiSessionId ∧
    ∃ new : List Request, (step s e).requests = s.requests ++ new ∧
      ∀ q ∈ new, q.session_id = s.cesiSessionId := by
  cases e with
  | toggle =>
    have h := wire_eq (cesiToggleChat_wire s)
    exact ⟨h.1, [], by simpa [step] using h.2, by simp⟩
  | send inputValue =>
    have h := wire_eq (cesiSendMessage_wire inputValue s)
    refine ⟨h.1, ?_⟩
    by_cases he : (trim inputValue).isEmpty = true
    · exact ⟨[], by simpa [step, he] using h.2, by simp⟩
    · exact ⟨_, by simpa [step, he] using h.2, by simp⟩
  | keyPress key inputValue =>
    by_cases hk : key = "Enter".toList
    · have h := wire_eq (cesiSendMessage_wire inputValue s)
      have hs : step s (.keyPress key inputValue) = cesiSendMessage inputValue s := by
        show (if key = "Enter".toList then _ else _) = _
        rw [if_pos hk]
      rw [hs]
      refine ⟨h.1, ?_⟩
      by_cases he : (trim inputValue).isEmpty = true
      · exact ⟨[], by simpa [he] using h.2, by simp⟩
      · exact ⟨_, by simpa [he] using h.2, by simp⟩
    · have hs : step s (.keyPress key inputValue) = s := by
        show (if key = "Enter".toList then _ else _) = s
        rw [if_neg hk]
      rw [hs]
      exact ⟨rfl, [], by simp, by simp⟩
  | action action =>
    have h := wire_eq (cesiSendAction_wire action s)
    refine ⟨h.1, ?_⟩
    cases hd : domString action with
    | none => exact ⟨[], by simpa [step, hd] using h.2, by simp⟩
    | some text => exact ⟨_, by simpa [step, hd] using h.2, by simp⟩
  | bookFromPanel =>
    have h := wire_eq (cesiSendAction_wire (some (.str bookingText)) (cesiHideActionButtons s))
    exact ⟨h.1, _, h.2, by simp [cesiHideActionButtons]⟩
  | phone pc =>
    simp only [step, phoneSubmit]
    cases getE164 pc with
    | none => exact ⟨rfl, [], by simp, by simp⟩
    | some phone =>
      have h := wire_eq (cesiSendPhoneToServer_wire phone (cesiAppendMessage .user pc.value s))
      have h4 := wire_eq (cesiAppendMessage_wire .user pc.value s)
      simp only [h4.1, h4.2, Widget.wire] at h
      exact ⟨h.1, _, h.2, by simp⟩
  | timeout id =>
    have h := wire_eq (timerFires_wire id s)
    exact ⟨h.1, [], by simpa [step] using h.2, by simp⟩
  | settled r =>
    have h := wire_eq (settle_wire r s)
    exact ⟨h.1, [], by simpa [step] using h.2, by simp⟩

theorem foldl_step_wire (sid : JsString) (events : List Event) (s : Widget)
    (h1 : s.cesiSessionId = sid) (h2 : ∀ q ∈ s.requests, q.session_id = sid) :
    (events.foldl step s).cesiSessionId = sid ∧
    ∀ q ∈ (events.foldl step s).requests, q.session_id = sid := by
  induction events generalizing s with
  | nil => exact ⟨h1, h2⟩
  | cons e es ih =>
    obtain ⟨hs, new, hr, hn⟩ := step_wire s e
    apply ih (step s e) (hs.trans h1)
    intro q hq
    rw [hr, List.mem_append] at hq
    rcases hq with hq | hq
    · exact h2 q hq
    · exact (hn q hq).trans h1

/-- C11, as stated, fails: in the run `sampleConversation` the reply carries
the session identifier `srv_42`, yet afterwards `window.cesiSessionId` is still
`session_1`, and the next request sends `session_1` again. -/
theorem reply_session_id_not_adopted :
    ¬ ((run "session_1".toList sampleConversation).cesiSessionId = "srv_42".toList) ∧
    (run "session_1".toList sampleConversation).cesiSessionId = "session_1".toList ∧
    (run "session_1".toList (sampleConversation ++ [.send "Спасибо".toList])).requests =
      [{ message := some (.str "Привет".toList), session_id := "session_1".toList },
       { message := some (.str "Спасибо".toList), session_id := "session_1".toList }] := by
  refine ⟨by decide, by decide, by decide⟩

/-- C11, amended: however a transport call settles, and whatever session
identifier the reply carries, the promise chain leaves `window.cesiSessionId`
as it was, and the next request (typed message, action or phone number) sends
that unchanged identifier. `cesiSendAction` issues its request when its
argument can be written into the user turn (`domString` yields a text); when
that write throws it issues none, and the requests stay as they were. -/
theorem reply_keeps_session_id (r : FetchResult) (s : Widget) (inputValue phone : JsString)
    (action : JsVal) :
    (settle onReplyData r s).cesiSessionId = s.cesiSessionId ∧
    (cesiSendAction action (settle onReplyData r s)).cesiSessionId = s.cesiSessionId ∧
    (cesiSendAction action (settle onReplyData r s)).requests =
      (match domString action with
        | some _ => s.requests ++ [{ message := action, session_id := s.cesiSessionId }]
        | none => s.requests) ∧
    (cesiSendPhoneToServer phone (settle onReplyData r s)).requests =
      s.requests ++ [{ message := some (.str phone), session_id := s.cesiSessionId }] ∧
    (cesiSendMessage inputValue (settle onReplyData r s)).requests =
      (if (trim inputValue).isEmpty then s.requests
        else s.requests ++
          [{ message := some (.str (trim inputValue)), session_id := s.cesiSessionId }]) := by
  have h := wire_eq (settle_wire r s)
  have ha := wire_eq (cesiSendAction_wire action (settle onReplyData r s))
  have hp := wire_eq (cesiSendPhoneToServer_wire phone (settle onReplyData r s))
  have hm := wire_eq (cesiSendMessage_wire inputValue (settle onReplyData r s))
  simp only [h.1, h.2, Widget.wire] at ha hp hm
  exact ⟨h.1, ha.1, ha.2, hp.2, hm.2⟩

/-- C12: each of the three senders puts the current `window.cesiSessionId` into
the request it issues, next to the message (`cesiSendAction` issues one when
its argument can be written into the user turn, and none when that write
throws; `cesiSendMessage` issues one when the trimmed text is not empty); and
over any sequence of events (open, close, send, action, phone submit, timer
fire, success or failure of a call) the identifier stays the one created at
activation, so every request issued carries that same identifier. -/
theorem requests_carry_session_id (sessionId : JsString) (events : List Event) :
    (run sessionId events).cesiSessionId = sessionId ∧
    (∀ q ∈ (run sessionId events).requests, q.session_id = sessionId) ∧
    (∀ (s : Widget) (action : JsVal), (cesiSendAction action s).requests =
      (match domString action with
        | some _ => s.requests ++ [{ message := action, session_id := s.cesiSessionId }]
        | none => s.requests)) ∧
    (∀ (s : Widget) (phone : JsString), (cesiSendPhoneToServer phone s).requests =
      s.requests ++ [{ message := some (.str phone), session_id := s.cesiSessionId }]) ∧
    (∀ (s : Widget) (inputValue : JsString), (cesiSendMessage inputValue s).requests =
      (if (trim inputValue).isEmpty then s.requests
        else s.requests ++
          [{ message := some (.str (trim inputValue)), session_id := s.cesiSessionId }])) := by
  have h := foldl_step_wire sessionId events (Widget.initial sessionId) rfl
    (by intro q hq; simp [Widget.initial] at hq)
  exact ⟨h.1, h.2, fun s a => (wire_eq (cesiSendAction_wire a s)).2,
    fun s p => (wire_eq (cesiSendPhoneToServer_wire p s)).2,
    fun s i => (wire_eq (cesiSendMessage_wire i s)).2⟩

/-! ## The inactivity timer -/

@[simp] theorem cesiAppendMessage_clock (type : Speaker) (text : JsString) (s : Widget) :
    (cesiAppendMessage type text s).clock = s.clock := by
  cases type <;> simp only [cesiAppendMessage, Widget.clock] <;> split <;> simp

@[simp] theorem cesiShowTypingIndicator_clock (s : Widget) :
    (cesiShowTypingIndicator s).clock = s.clock := rfl

@[simp] theorem cesiHideTypingIndicator_clock (s : Widget) :
    (cesiHideTypingIndicator s).clock = s.clock := rfl

@[simp] theorem cesiHideActionButtons_clock (s : Widget) :
    (cesiHideActionButtons s).clock = s.clock := rfl

@[simp] theorem cesiShowInactivityMessage_clock (s : Widget) :
    (cesiShowInactivityMessage s).clock = s.clock := by
  unfold cesiShowInactivityMessage
  split <;> rfl

@[simp] theorem renderCTA_clock (cta : JsVal) (s : Widget) :
    (renderCTA cta s).1.clock = s.clock := by
  unfold renderCTA
  split
  · rfl
  · split
    · rfl
    · split <;> rfl

@[simp] theorem renderActionButtons_clock (actionButtons : JsVal) (s : Widget) :
    (renderActionButtons actionButtons s).1.clock = s.clock := by
  unfold renderActionButtons
  split
  · rfl
  · split
    · rfl
    · split
      · split <;> rfl
      · rfl

@[simp] theorem renderAttachments_clock (cta actionButtons : JsVal) (s : Widget) :
    (renderAttachments cta actionButtons s).1.clock = s.clock := by
  unfold renderAttachments
  by_cases hc : cta.truthy = true <;> simp only [hc, if_true, if_false]
  · by_cases ht : (renderCTA cta s).2 = true <;> simp only [ht, if_true, if_false]
    · simp
    · by_cases ha : actionButtons.truthy = true <;> simp [ha]
  · by_cases ha : actionButtons.truthy = true <;> simp [ha]

@[simp] theorem onTransportError_clock (s : Widget) :
    (onTransportError s).clock = s.clock := by
  simp [onTransportError]

theorem inactivityTimers_filter_sublist (p : Timer → Bool) (timers : List Timer) :
    (inactivityTimers (timers.filter p)).Sublist (inactivityTimers timers) := by
  unfold inactivityTimers
  exact List.Sublist.filter _ (List.filter_sublist _)

/-- Dropping armed timeouts keeps the invariant. -/
theorem TimerInv.filter {timers : List Timer} {next : Nat} {handle : Option Nat}
    (h : TimerInv (timers, next, handle)) (p : Timer → Bool) :
    TimerInv (timers.filter p, next, handle) := by
  obtain ⟨h1, h2, h3⟩ := h
  have hsub := inactivityTimers_filter_sublist p timers
  exact ⟨h1, fun t ht => h2 t (hsub.subset ht), le_trans hsub.length_le h3⟩

/-- Arming a greeting timeout keeps the invariant. -/
theorem TimerInv.greeting {timers : List Timer} {next : Nat} {handle : Option Nat}
    (h : TimerInv (timers, next, handle)) (delay : Nat) :
    TimerInv (timers ++ [{ id := next, kind := .greeting, delay := delay }], next + 1, handle) := by
  obtain ⟨h1, h2, h3⟩ := h
  have he : inactivityTimers (timers ++ [{ id := next, kind := .greeting, delay := delay }]) =
      inactivityTimers timers := by
    simp [inactivityTimers, List.filter_append]
  refine ⟨Nat.succ_pos _, ?_, ?_⟩
  · intro t ht
    rw [he] at ht
    exact h2 t ht
  · rw [he]; exact h3

theorem clearInactivityTimer_clock (s : Widget) :
    ∃ p : Timer → Bool,
      (clearInactivityTimer s).clock = (s.timers.filter p, s.nextTimerId, s.cesiInactivityTimer) := by
  unfold clearInactivityTimer
  split
  · split
    · exact ⟨_, rfl⟩
    · exact ⟨fun _ => true, by simp [Widget.clock]⟩
  · exact ⟨fun _ => true, by simp [Widget.clock]⟩

theorem clearInactivityTimer_inv (s : Widget) (h : TimerInv s.clock) :
    TimerInv (clearInactivityTimer s).clock := by
  obtain ⟨p, hp⟩ := clearInactivityTimer_clock s
  rw [hp]
  exact TimerInv.filter h p

/-- After the clearing step of a reset no inactivity timeout is armed. -/
theorem clearInactivityTimer_none (s : Widget) (h : TimerInv s.clock) :
    inactivityTimers (clearInactivityTimer s).timers = [] := by
  obtain ⟨_, h2, _⟩ := h
  simp only [Widget.clock] at h2
  unfold clearInactivityTimer
  cases hh : s.cesiInactivityTimer with
  | none =>
    simp only
    apply List.eq_nil_iff_forall_not_mem.mpr
    intro t ht
    have := (h2 t ht).2
    rw [hh] at this
    exact absurd this (by simp)
  | some id =>
    simp only
    apply List.eq_nil_iff_forall_not_mem.mpr
    intro t ht
    by_cases h0 : id = 0
    · simp only [h0, ne_eq, not_true_eq_false, if_false] at ht
      have := h2 t ht
      rw [hh] at this
      have hid : id = t.id := by simpa using this.2
      exact this.1 (hid ▸ h0)
    · simp only [h0, ne_eq, not_false_eq_true, if_true, clearTimeout] at ht
      have hsub := inactivityTimers_filter_sublist (fun t => t.id != id) s.timers
      have ht' := hsub.subset ht
      have := (h2 t ht').2
      rw [hh] at this
      have hid : id = t.id := by simpa using this
      have hmem : t ∈ s.timers.filter (fun t => t.id != id) := by
        unfold inactivityTimers at ht
        exact (List.mem_filter.mp ht).1
      have := (List.mem_filter.mp hmem).2
      simp [hid] at this

theorem clearInactivityTimer_nextTimerId (s : Widget) :
    (clearInactivityTimer s).nextTimerId = s.nextTimerId := by
  obtain ⟨p, hp⟩ := clearInactivityTimer_clock s
  simp only [Widget.clock, Prod.mk.injEq] at hp
  exact hp.2.1

theorem cesiResetInactivityTimer_clock (s : Widget) :
    (cesiResetInactivityTimer s).clock =
      ((clearInactivityTimer s).timers ++
          [{ id := s.nextTimerId, kind := .inactivity, delay := 30000 }],
        s.nextTimerId + 1, some s.nextTimerId) := by
  simp [cesiResetInactivityTimer, setTimeout, Widget.clock, clearInactivityTimer_nextTimerId]

/-- After a reset exactly one inactivity timeout is armed: the new one. -/
theorem cesiResetInactivityTimer_armed (s : Widget) (h : TimerInv s.clock) :
    armedInactivity (cesiResetInactivityTimer s) =
      [{ id := s.nextTimerId, kind := .inactivity, delay := 30000 }] := by
  have hc := cesiResetInactivityTimer_clock s
  simp only [Widget.clock, Prod.mk.injEq] at hc
  have hn := clearInactivityTimer_none s h
  unfold armedInactivity
  rw [hc.1]
  unfold inactivityTimers at hn ⊢
  rw [List.filter_append, hn]
  simp

theorem cesiResetInactivityTimer_inv (s : Widget) (h : TimerInv s.clock) :
    TimerInv (cesiResetInactivityTimer s).clock := by
  have ha := cesiResetInactivityTimer_armed s h
  have hc := cesiResetInactivityTimer_clock s
  have hpos : 0 < s.nextTimerId := h.1
  unfold armedInactivity at ha
  simp only [Widget.clock, Prod.mk.injEq] at hc
  refine ⟨?_, ?_, ?_⟩
  · simp only [Widget.clock, hc.2.1]; omega
  · intro t ht
    simp only [Widget.clock] at ht
    rw [ha] at ht
    simp only [List.mem_singleton] at ht
    subst ht
    simp only [Widget.clock, hc.2.2]
    exact ⟨by simp; omega, trivial⟩
  · simp only [Widget.clock]
    rw [ha]
    simp

theorem TimerInv.of_clock_eq {a b : Widget} (hc : a.clock = b.clock) (h : TimerInv b.clock) :
    TimerInv a.clock := by
  rw [hc]; exact h

theorem cesiToggleChat_inv (s : Widget) (h : TimerInv s.clock) :
    TimerInv (cesiToggleChat s).clock := by
  unfold cesiToggleChat
  split
  · exact clearInactivityTimer_inv _ h
  · dsimp only
    split
    · exact TimerInv.greeting h 500
    · exact cesiResetInactivityTimer_inv _ h

theorem timerFires_inv (id : Nat) (s : Widget) (h : TimerInv s.clock) :
    TimerInv (timerFires id s).clock := by
  have hf : TimerInv (s.timers.filter (fun t => t.id != id), s.nextTimerId,
      s.cesiInactivityTimer) := TimerInv.filter h _
  unfold timerFires
  split
  · exact h
  · dsimp only
    split
    · apply cesiResetInactivityTimer_inv
      rw [cesiAppendMessage_clock]
      exact hf
    · rw [cesiShowInactivityMessage_clock]
      exact hf

theorem appendReplyText_clock (text : JsVal) (s w : Widget)
    (h : appendReplyText text s = some w) : w.clock = s.clock := by
  rcases appendReplyText_cases text s w h with rfl | ⟨shown, rfl⟩
  · rfl
  · simp

theorem onReplyData_inv (data : JsVal) (s : Widget) (h : TimerInv s.clock) :
    TimerInv (onReplyData data s).1.clock := by
  unfold onReplyData
  dsimp only
  cases replyText data with
  | none => exact h
  | some text =>
    dsimp only
    cases hw : appendReplyText text (cesiHideTypingIndicator s) with
    | none => exact h
    | some w =>
      have hr : TimerInv (cesiResetInactivityTimer w).clock := by
        apply cesiResetInactivityTimer_inv
        rw [appendReplyText_clock _ _ _ hw, cesiHideTypingIndicator_clock]
        exact h
      cases getProp data "cta".toList with
      | none => exact hr
      | some cta =>
        cases getProp data "action_buttons".toList with
        | none => exact hr
        | some ab =>
          dsimp only
          rw [renderAttachments_clock]
          exact hr

theorem settle_inv (r : FetchResult) (s : Widget) (h : TimerInv s.clock) :
    TimerInv (settle onReplyData r s).clock := by
  rw [settle_eq]
  cases responseData r with
  | none => simpa using h
  | some data =>
    dsimp only
    split
    · rw [onTransportError_clock]; exact onReplyData_inv data s h
    · exact onReplyData_inv data s h

theorem cesiSendAction_inv (action : JsVal) (s : Widget) (h : TimerInv s.clock) :
    TimerInv (cesiSendAction action s).clock := by
  unfold cesiSendAction
  cases domString action with
  | none => exact h
  | some text =>
    have h1 : TimerInv (cesiResetInactivityTimer
        (cesiAppendMessage .user text s)).clock := by
      apply cesiResetInactivityTimer_inv
      rw [cesiAppendMessage_clock]
      exact h
    exact h1

theorem cesiSendMessage_inv (inputValue : JsString) (s : Widget) (h : TimerInv s.clock) :
    TimerInv (cesiSendMessage inputValue s).clock := by
  unfold cesiSendMessage
  dsimp only
  split
  · have h1 : TimerInv (cesiResetInactivityTimer
        (cesiAppendMessage .user (trim inputValue) s)).clock := by
      apply cesiResetInactivityTimer_inv
      rw [cesiAppendMessage_clock]
      exact h
    exact h1
  · exact h

theorem step_inv (s : Widget) (e : Event) (h : TimerInv s.clock) :
    TimerInv (step s e).clock := by
  cases e with
  | toggle => exact cesiToggleChat_inv s h
  | send inputValue => exact cesiSendMessage_inv inputValue s h
  | keyPress key inputValue =>
    show TimerInv (cesiHandleKeyPress key inputValue s).clock
    unfold cesiHandleKeyPress
    split
    · exact cesiSendMessage_inv inputValue s h
    · exact h
  | action action => exact cesiSendAction_inv action s h
  | bookFromPanel => exact cesiSendAction_inv _ _ h
  | phone pc =>
    simp only [step, phoneSubmit]
    cases getE164 pc with
    | none => exact h
    | some phone =>
      have : (cesiSendPhoneToServer phone (cesiAppendMessage .user pc.value s)).clock =
          s.clock := by
        have := cesiAppendMessage_clock .user pc.value s
        simpa [cesiSendPhoneToServer, cesiShowTypingIndicator, Widget.clock] using this
      exact TimerInv.of_clock_eq this h
  | timeout id => exact timerFires_inv id s h
  | settled r => exact settle_inv r s h

theorem run_inv (sessionId : JsString) (events : List Event) :
    TimerInv (run sessionId events).clock := by
  have h0 : TimerInv (Widget.initial sessionId).clock := by
    refine ⟨Nat.one_pos, ?_, Nat.zero_le _⟩
    intro t ht
    simp [Widget.initial, Widget.clock, inactivityTimers] at ht
  unfold run
  generalize Widget.initial sessionId = s at h0
  induction events generalizing s with
  | nil => exact h0
  | cons e es ih => exact ih (step s e) (step_inv s e h0)

theorem iterate_reset_inv (n : Nat) (s : Widget) (h : TimerInv s.clock) :
    TimerInv (cesiResetInactivityTimer^[n] s).clock := by
  induction n generalizing s with
  | zero => exact h
  | succ n ih =>
    rw [Function.iterate_succ_apply]
    exact ih _ (cesiResetInactivityTimer_inv s h)

/-- C13: in every reachable state at most one inactivity timeout is armed;
`cesiResetInactivityTimer` leaves exactly one armed, the new one with the
delay 30000 ms (any earlier one is cancelled); so after any number `n + 1` of
consecutive resets exactly one is armed, and only it can fire. -/
theorem at_most_one_inactivity_timer (sessionId : JsString) (events : List Event) (n : Nat) :
    (armedInactivity (run sessionId events)).length ≤ 1 ∧
    armedInactivity (cesiResetInactivityTimer (run sessionId events)) =
      [{ id := (run sessionId events).nextTimerId, kind := .inactivity, delay := 30000 }] ∧
    (armedInactivity (cesiResetInactivityTimer^[n + 1] (run sessionId events))).length = 1 := by
  have h := run_inv sessionId events
  refine ⟨h.2.2, cesiResetInactivityTimer_armed _ h, ?_⟩
  rw [Function.iterate_succ_apply']
  rw [cesiResetInactivityTimer_armed _ (iterate_reset_inv n _ h)]
  rfl

/-! ## Controls in the transcript -/

theorem countControls_append (p : Control → Bool) (a b : List Turn) :
    countControls p (a ++ b) = countControls p a + countControls p b := by
  simp [countControls]

theorem countControls_dropStale_booking (ts : List Turn) :
    countControls Control.isBookingButton (ts.map Turn.dropStaleControls) = 0 := by
  induction ts with
  | nil => rfl
  | cons t ts ih =>
    simp only [countControls, List.map_cons, List.sum_cons] at ih ⊢
    rw [ih]
    simp only [Turn.dropStaleControls, List.filter_filter, add_zero, List.length_eq_zero]
    apply List.filter_eq_nil_iff.mpr
    intro c _
    cases c <;> simp [Control.isBookingButton, Control.isPhoneCapture]

theorem countControls_dropStale_phone (ts : List Turn) :
    countControls Control.isPhoneCapture (ts.map Turn.dropStaleControls) = 0 := by
  induction ts with
  | nil => rfl
  | cons t ts ih =>
    simp only [countControls, List.map_cons, List.sum_cons] at ih ⊢
    rw [ih]
    simp only [Turn.dropStaleControls, List.filter_filter, add_zero, List.length_eq_zero]
    apply List.filter_eq_nil_iff.mpr
    intro c _
    cases c <;> simp [Control.isBookingButton, Control.isPhoneCapture]

theorem cesiAppendMessage_user_transcript (text : JsString) (s : Widget) :
    (cesiAppendMessage .user text s).transcript =
      (s.transcript ++ [Turn.mk .user false text []]).map Turn.dropStaleControls := by
  simp [cesiAppendMessage]

theorem user_turn_removes_stale_controls_aux (text : JsString) (s : Widget) :
    ctaCount (cesiAppendMessage .user text s) = 0 := by
  unfold ctaCount
  rw [cesiAppendMessage_user_transcript]
  exact countControls_dropStale_booking _

/-- C15: after `cesiAppendMessage('user', t)`, whatever the transcript held,
no element of class `cesi-booking-button` (call-to-action) and no phone-capture
control remains in any turn of the transcript. -/
theorem user_turn_removes_stale_controls (text : JsString) (s : Widget) :
    ctaCount (cesiAppendMessage .user text s) = 0 ∧
    phoneCaptureCount (cesiAppendMessage .user text s) = 0 := by
  unfold ctaCount phoneCaptureCount
  rw [cesiAppendMessage_user_transcript]
  exact ⟨countControls_dropStale_booking _, countControls_dropStale_phone _⟩

theorem countControls_removeFirst_le (p : Control → Bool) (q : Turn → Bool) (ts : List Turn) :
    countControls p (removeFirst q ts) ≤ countControls p ts := by
  induction ts with
  | nil => exact Nat.le_refl _
  | cons t ts ih =>
    unfold removeFirst
    split
    · simp [countControls]
    · simp only [countControls, List.map_cons, List.sum_cons] at ih ⊢
      omega

theorem countControls_appendToLast (p : Control → Bool) (c : Control) (ts : List Turn) :
    countControls p (appendToLast c ts) =
      countControls p ts + (if ts = [] then 0 else if p c = true then 1 else 0) := by
  induction ts with
  | nil => rfl
  | cons t ts ih =>
    cases ts with
    | nil =>
      by_cases hp : p c = true <;>
        simp [appendToLast, countControls, List.filter_append, hp]
    | cons u rest =>
      simp only [appendToLast, countControls, List.map_cons, List.sum_cons] at ih ⊢
      simp only [reduceCtorEq, if_false] at ih ⊢
      omega

@[simp] theorem cesiResetInactivityTimer_transcript (s : Widget) :
    (cesiResetInactivityTimer s).transcript = s.transcript := by
  have h : (clearInactivityTimer s).transcript = s.transcript := by
    unfold clearInactivityTimer
    split
    · split <;> rfl
    · rfl
  simp [cesiResetInactivityTimer, setTimeout, h]

@[simp] theorem clearInactivityTimer_transcript (s : Widget) :
    (clearInactivityTimer s).transcript = s.transcript := by
  unfold clearInactivityTimer
  split
  · split <;> rfl
  · rfl

theorem ctaCount_congr {a b : Widget} (h : a.transcript = b.transcript) :
    ctaCount a = ctaCount b := by
  unfold ctaCount; rw [h]

theorem ctaCount_appendBot (text : JsString) (s : Widget) :
    ctaCount (cesiAppendMessage .bot text s) = ctaCount s := by
  unfold ctaCount cesiAppendMessage
  dsimp only
  split
  · rename_i h
    exact absurd h (by decide)
  · split <;> simp [countControls_append, countControls, Control.isBookingButton]

theorem ctaCount_hideTyping_le (s : Widget) :
    ctaCount (cesiHideTypingIndicator s) ≤ ctaCount s :=
  countControls_removeFirst_le _ _ _

theorem ctaCount_showTyping (s : Widget) :
    ctaCount (cesiShowTypingIndicator s) = ctaCount s := by
  simp [ctaCount, cesiShowTypingIndicator, countControls_append, countControls, typingDiv]

theorem ctaCount_nudge_le (s : Widget) :
    ctaCount (cesiShowInactivityMessage s) ≤ ctaCount s + 1 := by
  unfold cesiShowInactivityMessage
  split
  · exact Nat.le_succ _
  · simp [ctaCount, countControls_append, countControls, Control.isBookingButton]

theorem ctaCount_renderCTA_le (cta : JsVal) (s : Widget) :
    ctaCount (renderCTA cta s).1 ≤ ctaCount s + 1 := by
  unfold renderCTA
  split
  · exact Nat.le_succ _
  · split
    · exact Nat.le_succ _
    · split
      · exact Nat.le_succ _
      · simp only [ctaCount, countControls_appendToLast]
        split
        · exact Nat.le_succ _
        · simp [Control.isBookingButton]

theorem ctaCount_renderActionButtons (actionButtons : JsVal) (s : Widget) :
    ctaCount (renderActionButtons actionButtons s).1 = ctaCount s := by
  unfold renderActionButtons
  split
  · rfl
  · split
    · rfl
    · split
      · split
        · rfl
        · simp only [ctaCount, countControls_appendToLast]
          split <;> simp [Control.isBookingButton]
      · rfl

theorem ctaCount_renderAttachments_le (cta actionButtons : JsVal) (s : Widget) :
    ctaCount (renderAttachments cta actionButtons s).1 ≤ ctaCount s + 1 := by
  unfold renderAttachments
  by_cases hc : cta.truthy = true <;> simp only [hc, if_true, if_false]
  · by_cases ht : (renderCTA cta s).2 = true <;>
      simp only [ht, if_true, if_false, Bool.false_eq_true]
    · exact ctaCount_renderCTA_le cta s
    · by_cases ha : actionButtons.truthy = true <;>
        simp only [ha, if_true, if_false, Bool.false_eq_true]
      · rw [ctaCount_renderActionButtons]; exact ctaCount_renderCTA_le cta s
      · exact ctaCount_renderCTA_le cta s
  · by_cases ha : actionButtons.truthy = true <;>
      simp only [ha, if_true, if_false, Bool.false_eq_true]
    · rw [ctaCount_renderActionButtons]; exact Nat.le_succ _
    · exact Nat.le_succ _

theorem ctaCount_onTransportError_le (s : Widget) :
    ctaCount (onTransportError s) ≤ ctaCount s := by
  unfold onTransportError
  rw [ctaCount_appendBot]
  exact ctaCount_hideTyping_le s

theorem ctaCount_appendReplyText (text : JsVal) (s w : Widget)
    (h : appendReplyText text s = some w) : ctaCount w = ctaCount s := by
  rcases appendReplyText_cases text s w h with rfl | ⟨shown, rfl⟩
  · rfl
  · exact ctaCount_appendBot _ _

theorem ctaCount_onReplyData_le (data : JsVal) (s : Widget) :
    ctaCount (onReplyData data s).1 ≤ ctaCount s + 1 := by
  unfold onReplyData
  dsimp only
  have hh := ctaCount_hideTyping_le s
  cases replyText data with
  | none => exact Nat.le_succ_of_le hh
  | some text =>
    dsimp only
    cases hw : appendReplyText text (cesiHideTypingIndicator s) with
    | none => exact Nat.le_succ_of_le hh
    | some w =>
      have h1 : ctaCount (cesiResetInactivityTimer w) ≤ ctaCount s := by
        rw [ctaCount_congr (cesiResetInactivityTimer_transcript _),
          ctaCount_appendReplyText _ _ _ hw]
        exact hh
      cases getProp data "cta".toList with
      | none => exact Nat.le_succ_of_le h1
      | some cta =>
        cases getProp data "action_buttons".toList with
        | none => exact Nat.le_succ_of_le h1
        | some ab =>
          dsimp only
          exact le_trans (ctaCount_renderAttachments_le _ _ _) (Nat.succ_le_succ h1)

theorem ctaCount_settle_le (r : FetchResult) (s : Widget) :
    ctaCount (settle onReplyData r s) ≤ ctaCount s + 1 := by
  rw [settle_eq]
  cases responseData r with
  | none => exact Nat.le_succ_of_le (ctaCount_onTransportError_le s)
  | some data =>
    dsimp only
    split
    · exact le_trans (ctaCount_onTransportError_le _) (ctaCount_onReplyData_le data s)
    · exact ctaCount_onReplyData_le data s

theorem ctaCount_cesiSendAction (action : JsVal) (s : Widget) :
    ctaCount (cesiSendAction action s) =
      match domString action with
      | some _ => 0
      | none => ctaCount s := by
  unfold cesiSendAction
  cases domString action with
  | none => rfl
  | some text =>
    have h := (user_turn_removes_stale_controls_aux text s)
    simp only [ctaCount] at h ⊢
    simp only [cesiShowTypingIndicator, cesiHideActionButtons,
      cesiResetInactivityTimer_transcript, countControls_append, h]
    rfl

theorem domString_str (text : JsString) : domString (some (.str text)) = some text := by
  simp [domString, Json.toJsString]

theorem ctaCount_cesiSendAction_str (text : JsString) (s : Widget) :
    ctaCount (cesiSendAction (some (.str text)) s) = 0 := by
  rw [ctaCount_cesiSendAction, domString_str]

theorem ctaCount_cesiSendMessage (inputValue : JsString) (s : Widget) :
    ctaCount (cesiSendMessage inputValue s) =
      if (trim inputValue).isEmpty then ctaCount s else 0 := by
  have h := (user_turn_removes_stale_controls_aux (trim inputValue) s)
  unfold cesiSendMessage
  by_cases he : (trim inputValue).isEmpty = true
  · simp [he]
  · simp only [he, Bool.not_false, Bool.not_true, if_true, if_false, Bool.false_eq_true]
    simp only [ctaCount] at h ⊢
    simp only [cesiShowTypingIndicator, cesiHideActionButtons,
      cesiResetInactivityTimer_transcript, countControls_append, h]
    rfl

theorem ctaCount_phoneSubmit_le (pc : PhoneCapture) (s : Widget) :
    ctaCount (phoneSubmit pc s) ≤ ctaCount s + 1 := by
  unfold phoneSubmit
  cases getE164 pc with
  | none => exact Nat.le_succ _
  | some phone =>
    have h := (user_turn_removes_stale_controls_aux pc.value s)
    have h0 : ctaCount (cesiSendPhoneToServer phone (cesiAppendMessage .user pc.value s)) = 0 := by
      simp only [ctaCount] at h ⊢
      simp only [cesiSendPhoneToServer, cesiShowTypingIndicator, countControls_append, h]
      rfl
    dsimp only
    rw [h0]
    exact Nat.zero_le _

theorem ctaCount_cesiToggleChat (s : Widget) : ctaCount (cesiToggleChat s) = ctaCount s := by
  apply ctaCount_congr
  unfold cesiToggleChat
  split
  · rw [clearInactivityTimer_transcript]
  · dsimp only
    split
    · rfl
    · rw [cesiResetInactivityTimer_transcript]

theorem ctaCount_timerFires_le (id : Nat) (s : Widget) :
    ctaCount (timerFires id s) ≤ ctaCount s + 1 := by
  unfold timerFires
  split
  · exact Nat.le_succ _
  · dsimp only
    split
    · rw [greetingCallback, ctaCount_congr (cesiResetInactivityTimer_transcript _),
        ctaCount_appendBot]
      exact Nat.le_succ _
    · exact ctaCount_nudge_le _

/-- One event adds at most one call-to-action attachment. -/
theorem ctaCount_step_le (s : Widget) (e : Event) : ctaCount (step s e) ≤ ctaCount s + 1 := by
  cases e with
  | toggle => exact Nat.le_succ_of_le (Nat.le_of_eq (ctaCount_cesiToggleChat s))
  | send inputValue =>
    show ctaCount (cesiSendMessage inputValue s) ≤ _
    rw [ctaCount_cesiSendMessage]
    split
    · exact Nat.le_succ _
    · exact Nat.zero_le _
  | keyPress key inputValue =>
    show ctaCount (cesiHandleKeyPress key inputValue s) ≤ _
    unfold cesiHandleKeyPress
    split
    · rw [ctaCount_cesiSendMessage]
      split
      · exact Nat.le_succ _
      · exact Nat.zero_le _
    · exact Nat.le_succ _
  | action action =>
    show ctaCount (cesiSendAction action s) ≤ _
    rw [ctaCount_cesiSendAction]
    split
    · exact Nat.zero_le _
    · exact Nat.le_succ _
  | bookFromPanel =>
    show ctaCount (cesiSendAction _ _) ≤ _
    rw [ctaCount_cesiSendAction_str]
    exact Nat.zero_le _
  | phone pc => exact ctaCount_phoneSubmit_le pc s
  | timeout id => exact ctaCount_timerFires_le id s
  | settled r => exact ctaCount_settle_le r s

/-- C16, as stated, fails: in the run `sampleConversation` the reply's
call-to-action is attached, and when the inactivity timeout armed by that reply
fires the nudge adds its booking button, so two are live at once. -/
theorem two_live_ctas_reachable :
    ctaCount (run "session_1".toList (sampleConversation ++ [.timeout 4])) = 2 ∧
    ¬ (ctaCount (run "session_1".toList (sampleConversation ++ [.timeout 4])) ≤ 1) := by
  constructor <;> decide

theorem ctaCount_cesiHandleKeyPress (key inputValue : JsString) (s : Widget) :
    ctaCount (cesiHandleKeyPress key inputValue s) =
      if key = "Enter".toList ∧ (trim inputValue).isEmpty = false then 0 else ctaCount s := by
  unfold cesiHandleKeyPress
  by_cases hk : key = "Enter".toList
  · rw [if_pos hk, ctaCount_cesiSendMessage]
    by_cases he : (trim inputValue).isEmpty = true
    · rw [if_pos he, if_neg]
      rintro ⟨-, h⟩
      rw [he] at h
      exact absurd h (by decide)
    · rw [if_neg he, if_pos]
      exact ⟨hk, by simpa using he⟩
  · rw [if_neg hk, if_neg]
    exact fun h => hk h.1

theorem ctaCount_phoneSubmit (pc : PhoneCapture) (s : Widget) :
    ctaCount (phoneSubmit pc s) =
      match attachPhoneMask.getE164 pc with
      | some _ => 0
      | none => ctaCount s := by
  unfold phoneSubmit
  cases attachPhoneMask.getE164 pc with
  | none => rfl
  | some phone =>
    have h := (user_turn_removes_stale_controls_aux pc.value s)
    dsimp only
    simp only [ctaCount] at h ⊢
    simp only [cesiSendPhoneToServer, cesiShowTypingIndicator, countControls_append, h]
    rfl

theorem userTurnCount_congr {a b : Widget} (h : a.transcript = b.transcript) :
    userTurnCount a = userTurnCount b := by
  unfold userTurnCount; rw [h]

theorem userTurnCount_appendBot (text : JsString) (s : Widget) :
    userTurnCount (cesiAppendMessage .bot text s) = userTurnCount s := by
  unfold userTurnCount cesiAppendMessage
  dsimp only
  split
  · rename_i h
    exact absurd h (by decide)
  · split <;> simp [List.countP_append]

theorem countP_user_removeFirst_le (q : Turn → Bool) (ts : List Turn) :
    (removeFirst q ts).countP (fun t => t.speaker == Speaker.user) ≤
      ts.countP (fun t => t.speaker == Speaker.user) := by
  induction ts with
  | nil => exact Nat.le_refl _
  | cons t ts ih =>
    unfold removeFirst
    split
    · rw [List.countP_cons]
      exact Nat.le_add_right _ _
    · rw [List.countP_cons, List.countP_cons]
      exact Nat.add_le_add_right ih _

theorem countP_user_appendToLast (c : Control) (ts : List Turn) :
    (appendToLast c ts).countP (fun t => t.speaker == Speaker.user) =
      ts.countP (fun t => t.speaker == Speaker.user) := by
  induction ts with
  | nil => rfl
  | cons t ts ih =>
    cases ts with
    | nil => simp [appendToLast, List.countP_cons]
    | cons u rest =>
      simp only [appendToLast, List.countP_cons] at ih ⊢
      rw [ih]

theorem userTurnCount_hideTyping_le (s : Widget) :
    userTurnCount (cesiHideTypingIndicator s) ≤ userTurnCount s :=
  countP_user_removeFirst_le _ _

theorem userTurnCount_renderCTA (cta : JsVal) (s : Widget) :
    userTurnCount (renderCTA cta s).1 = userTurnCount s := by
  unfold renderCTA
  split
  · rfl
  · split
    · rfl
    · split
      · rfl
      · exact countP_user_appendToLast _ _

theorem userTurnCount_renderActionButtons (actionButtons : JsVal) (s : Widget) :
    userTurnCount (renderActionButtons actionButtons s).1 = userTurnCount s := by
  unfold renderActionButtons
  split
  · rfl
  · split
    · rfl
    · split
      · split
        · rfl
        · exact countP_user_appendToLast _ _
      · rfl

theorem userTurnCount_renderAttachments (cta actionButtons : JsVal) (s : Widget) :
    userTurnCount (renderAttachments cta actionButtons s).1 = userTurnCount s := by
  unfold renderAttachments
  by_cases hc : cta.truthy = true <;> simp only [hc, if_true, if_false]
  · by_cases ht : (renderCTA cta s).2 = true <;>
      simp only [ht, if_true, if_false, Bool.false_eq_true]
    · exact userTurnCount_renderCTA cta s
    · by_cases ha : actionButtons.truthy = true <;>
        simp only [ha, if_true, if_false, Bool.false_eq_true]
      · rw [userTurnCount_renderActionButtons]; exact userTurnCount_renderCTA cta s
      · exact userTurnCount_renderCTA cta s
  · by_cases ha : actionButtons.truthy = true <;>
      simp only [ha, if_true, if_false, Bool.false_eq_true]
    rw [userTurnCount_renderActionButtons]

theorem userTurnCount_onTransportError_le (s : Widget) :
    userTurnCount (onTransportError s) ≤ userTurnCount s := by
  unfold onTransportError
  rw [userTurnCount_appendBot]
  exact userTurnCount_hideTyping_le s

theorem userTurnCount_appendReplyText (text : JsVal) (s w : Widget)
    (h : appendReplyText text s = some w) : userTurnCount w = userTurnCount s := by
  rcases appendReplyText_cases text s w h with rfl | ⟨shown, rfl⟩
  · rfl
  · exact userTurnCount_appendBot _ _

theorem userTurnCount_onReplyData_le (data : JsVal) (s : Widget) :
    userTurnCount (onReplyData data s).1 ≤ userTurnCount s := by
  unfold onReplyData
  dsimp only
  have hh := userTurnCount_hideTyping_le s
  cases replyText data with
  | none => exact hh
  | some text =>
    dsimp only
    cases hw : appendReplyText text (cesiHideTypingIndicator s) with
    | none => exact hh
    | some w =>
      have h1 : userTurnCount (cesiResetInactivityTimer w) ≤ userTurnCount s := by
        rw [userTurnCount_congr (cesiResetInactivityTimer_transcript _),
          userTurnCount_appendReplyText _ _ _ hw]
        exact hh
      cases getProp data "cta".toList with
      | none => exact h1
      | some cta =>
        cases getProp data "action_buttons".toList with
        | none => exact h1
        | some ab =>
          dsimp only
          rw [userTurnCount_renderAttachments]
          exact h1

theorem userTurnCount_settle_le (r : FetchResult) (s : Widget) :
    userTurnCount (settle onReplyData r s) ≤ userTurnCount s := by
  rw [settle_eq]
  cases responseData r with
  | none => exact userTurnCount_onTransportError_le s
  | some data =>
    dsimp only
    split
    · exact le_trans (userTurnCount_onTransportError_le _) (userTurnCount_onReplyData_le data s)
    · exact userTurnCount_onReplyData_le data s

theorem userTurnCount_cesiToggleChat (s : Widget) :
    userTurnCount (cesiToggleChat s) = userTurnCount s := by
  apply userTurnCount_congr
  unfold cesiToggleChat
  split
  · rw [clearInactivityTimer_transcript]
  · dsimp only
    split
    · rfl
    · rw [cesiResetInactivityTimer_transcript]

theorem userTurnCount_timerFires (id : Nat) (s : Widget) :
    userTurnCount (timerFires id s) = userTurnCount s := by
  unfold timerFires
  split
  · rfl
  · dsimp only
    split
    · rw [greetingCallback, userTurnCount_congr (cesiResetInactivityTimer_transcript _),
        userTurnCount_appendBot]
      rfl
    · unfold cesiShowInactivityMessage
      split
      · rfl
      · simp [userTurnCount, List.countP_append]

/-- An event either leaves no more user turns than there were, or leaves no
call-to-action attachment live. -/
theorem userTurn_or_no_cta (s : Widget) (e : Event) :
    userTurnCount (step s e) ≤ userTurnCount s ∨ ctaCount (step s e) = 0 := by
  cases e with
  | toggle => exact Or.inl (Nat.le_of_eq (userTurnCount_cesiToggleChat s))
  | send inputValue =>
    have h := ctaCount_cesiSendMessage inputValue s
    by_cases he : (trim inputValue).isEmpty = true
    · left
      show userTurnCount (cesiSendMessage inputValue s) ≤ _
      unfold cesiSendMessage
      simp [he]
    · right
      rw [if_neg he] at h
      exact h
  | keyPress key inputValue =>
    show userTurnCount (cesiHandleKeyPress key inputValue s) ≤ _ ∨
      ctaCount (cesiHandleKeyPress key inputValue s) = 0
    unfold cesiHandleKeyPress
    split
    · have h := ctaCount_cesiSendMessage inputValue s
      by_cases he : (trim inputValue).isEmpty = true
      · left
        unfold cesiSendMessage
        simp [he]
      · right
        rw [if_neg he] at h
        exact h
    · exact Or.inl (Nat.le_refl _)
  | action action =>
    have h := ctaCount_cesiSendAction action s
    show userTurnCount (cesiSendAction action s) ≤ _ ∨ ctaCount (cesiSendAction action s) = 0
    cases hd : domString action with
    | none =>
      left
      unfold cesiSendAction
      rw [hd]
    | some text =>
      right
      rw [hd] at h
      exact h
  | bookFromPanel => exact Or.inr (ctaCount_cesiSendAction_str _ _)
  | phone pc =>
    have h := ctaCount_phoneSubmit pc s
    show userTurnCount (phoneSubmit pc s) ≤ _ ∨ ctaCount (phoneSubmit pc s) = 0
    cases hd : attachPhoneMask.getE164 pc with
    | none =>
      left
      unfold phoneSubmit
      rw [hd]
    | some phone =>
      right
      rw [hd] at h
      exact h
  | timeout id => exact Or.inl (Nat.le_of_eq (userTurnCount_timerFires id s))
  | settled r => exact Or.inl (userTurnCount_settle_le r s)

/-- C16, amended: every event adds at most one live call-to-action attachment
(a bot reply carrying a `cta`, or an inactivity nudge, adds one), and every
event that appends a user turn leaves none live: whenever an event leaves more
user turns in the transcript than there were, no call-to-action is left. Event
by event: a click handled by `cesiSendAction` leaves none when its argument can
be written into the user turn (when that write throws, no turn is appended and
the count stays); the first button of the static panel leaves none; the send
button and the Enter key leave none when the trimmed input is not empty (else
nothing happens); a phone submit leaves none when the number is complete (else
nothing happens). -/
theorem cta_count_per_event (s : Widget) (e : Event) (key inputValue : JsString)
    (action : JsVal) (pc : PhoneCapture) :
    ctaCount (step s e) ≤ ctaCount s + 1 ∧
    (userTurnCount (step s e) ≤ userTurnCount s ∨ ctaCount (step s e) = 0) ∧
    ctaCount (step s (.action action)) =
      (match domString action with
        | some _ => 0
        | none => ctaCount s) ∧
    ctaCount (step s .bookFromPanel) = 0 ∧
    ctaCount (step s (.send inputValue)) =
      (if (trim inputValue).isEmpty then ctaCount s else 0) ∧
    ctaCount (step s (.keyPress key inputValue)) =
      (if key = "Enter".toList ∧ (trim inputValue).isEmpty = false then 0 else ctaCount s) ∧
    ctaCount (step s (.phone pc)) =
      (match attachPhoneMask.getE164 pc with
        | some _ => 0
        | none => ctaCount s) :=
  ⟨ctaCount_step_le s e, userTurn_or_no_cta s e, ctaCount_cesiSendAction action s,
    ctaCount_cesiSendAction_str _ _, ctaCount_cesiSendMessage inputValue s,
    ctaCount_cesiHandleKeyPress key inputValue s, ctaCount_phoneSubmit pc s⟩

/-! ## Opening, rendering, composing indicator, sending: the claims -/

/-- C14: the greeting is gated on `cesiMessageCount === 0`, and only user turns
raise that counter. After the first opening and its greeting the counter is
still 0, so closing and opening again arms a second greeting timeout (and no
inactivity reset happens on that opening); when it fires the transcript holds
the greeting twice. -/
theorem greeting_scheduled_again_on_reopen :
    (run "session_1".toList [.toggle]).timers =
      [{ id := 1, kind := .greeting, delay := 500 }] ∧
    (run "session_1".toList [.toggle, .timeout 1]).cesiMessageCount = 0 ∧
    (run "session_1".toList [.toggle, .timeout 1, .toggle, .toggle]).timers =
      [{ id := 3, kind := .greeting, delay := 500 }] ∧
    (run "session_1".toList [.toggle, .timeout 1, .toggle, .toggle, .timeout 3]).transcript.map
      (fun t => t.text) = [greetingText, greetingText] := by
  refine ⟨by decide, by decide, by decide, by decide⟩

/-- C17: `.cesi-message.bot:last-child` only matches the last child of the
transcript. With a bot turn followed by a user turn, `renderCTA` and
`renderActionButtons` attach nothing (so the `cta` of a reply without text is
dropped although the greeting is a bot turn); with a bot turn followed by the
composing placeholder they attach their controls to the placeholder. -/
theorem render_targets_last_child_only :
    renderCTA bookCta (cesiAppendMessage .user "Привет".toList openedState) =
      (cesiAppendMessage .user "Привет".toList openedState, false) ∧
    renderActionButtons priceButtons (cesiAppendMessage .user "Привет".toList openedState) =
      (cesiAppendMessage .user "Привет".toList openedState, false) ∧
    (run "session_1".toList
      [.toggle, .timeout 1, .send "Привет".toList, .settled ctaOnlyReply]).transcript =
      [{ speaker := .bot, typing := false, text := greetingText, controls := [] },
       { speaker := .user, typing := false, text := "Привет".toList, controls := [] }] ∧
    (renderCTA bookCta (cesiShowTypingIndicator openedState)).1.transcript.map
      (fun t => (t.typing, t.controls.length)) = [(false, 0), (true, 1)] ∧
    (renderActionButtons priceButtons (cesiShowTypingIndicator openedState)).1.transcript.map
      (fun t => (t.typing, t.controls.length)) = [(false, 0), (true, 1)] := by
  refine ⟨by decide, by decide, by decide, by decide, by decide⟩

/-- C18, as stated, fails: two calls of `cesiShowTypingIndicator` leave two
composing placeholders, not the transcript of one call; and on that transcript
two calls of `cesiHideTypingIndicator` leave none where one call leaves one. -/
theorem show_typing_twice_differs :
    (cesiShowTypingIndicator (cesiShowTypingIndicator openedState)).transcript ≠
      (cesiShowTypingIndicator openedState).transcript ∧
    typingCount (cesiShowTypingIndicator (cesiShowTypingIndicator openedState)) = 2 ∧
    (cesiHideTypingIndicator (cesiHideTypingIndicator
        (cesiShowTypingIndicator (cesiShowTypingIndicator openedState)))).transcript ≠
      (cesiHideTypingIndicator
        (cesiShowTypingIndicator (cesiShowTypingIndicator openedState))).transcript := by
  refine ⟨by decide, by decide, by decide⟩

theorem removeFirst_of_none (ts : List Turn) (h : ts.filter (fun t => t.typing) = []) :
    removeFirst (fun t => t.typing) ts = ts := by
  induction ts with
  | nil => rfl
  | cons t ts ih =>
    by_cases ht : t.typing = true
    · simp [List.filter_cons, ht] at h
    · have ht2 : t.typing = false := by simpa using ht
      have h' : ts.filter (fun t => t.typing) = [] := by
        simpa [List.filter_cons, ht2] using h
      simp [removeFirst, ht2, ih h']

/-- C18, amended: every call of `cesiShowTypingIndicator` appends one more
composing placeholder; `cesiHideTypingIndicator` removes the first placeholder
only, so on a transcript with at most one placeholder a second call changes
nothing after the first, and none remains. -/
theorem composing_indicator_calls (s : Widget) (h : typingCount s ≤ 1) :
    (cesiShowTypingIndicator (cesiShowTypingIndicator s)).transcript =
      s.transcript ++ [typingDiv, typingDiv] ∧
    typingCount (cesiShowTypingIndicator (cesiShowTypingIndicator s)) = typingCount s + 2 ∧
    cesiHideTypingIndicator (cesiHideTypingIndicator s) = cesiHideTypingIndicator s ∧
    typingCount (cesiHideTypingIndicator s) = 0 := by
  have hnone : (cesiHideTypingIndicator s).transcript.filter (fun t => t.typing) = [] := by
    unfold typingCount at h
    by_cases h1 : (s.transcript.filter (fun t => t.typing)).length = 1
    · exact (removeFirst_of_single s.transcript h1).2
    · have h0 : s.transcript.filter (fun t => t.typing) = [] := by
        apply List.length_eq_zero.mp
        omega
      simp only [cesiHideTypingIndicator]
      rw [removeFirst_of_none _ h0]
      exact h0
  refine ⟨?_, ?_, ?_, ?_⟩
  · simp [cesiShowTypingIndicator]
  · simp [typingCount, cesiShowTypingIndicator, List.filter_append, typingDiv]
  · show ({ cesiHideTypingIndicator s with
        transcript := removeFirst (fun t => t.typing) (cesiHideTypingIndicator s).transcript } :
          Widget) = cesiHideTypingIndicator s
    rw [removeFirst_of_none _ hnone]
  · unfold typingCount
    rw [hnone]
    rfl

/-- C18 amended, at a concrete input: the opened widget with one composing
placeholder shown. -/
theorem composing_indicator_calls_witness :
    typingCount (cesiShowTypingIndicator openedState) ≤ 1 ∧
    cesiHideTypingIndicator (cesiHideTypingIndicator (cesiShowTypingIndicator openedState)) =
      cesiHideTypingIndicator (cesiShowTypingIndicator openedState) ∧
    typingCount (cesiHideTypingIndicator (cesiShowTypingIndicator openedState)) = 0 :=
  ⟨by decide,
    (composing_indicator_calls (cesiShowTypingIndicator openedState) (by decide)).2.2⟩

theorem trim_of_blank (text : JsString) (h : text.all isTrimmed = true) : trim text = [] := by
  have h0 : text.dropWhile isTrimmed = [] := by
    apply List.dropWhile_eq_nil_iff.mpr
    intro c hc
    exact List.all_eq_true.mp h c hc
  simp [trim, h0]

/-- A typed text that is empty or only white space is not sent: `cesiSendMessage`
leaves the state as it is. -/
theorem cesiSendMessage_blank (text : JsString) (s : Widget)
    (h : text.all isTrimmed = true) : cesiSendMessage text s = s := by
  simp [cesiSendMessage, trim_of_blank text h]

/-- C19: `cesiSendAction` has no guard on its text. On the opened widget a typed
blank text changes nothing, but the empty action payload appends a user turn,
raises both counters, arms the inactivity timeout, shows the composing
indicator and issues a request with the empty message; a payload of two blanks
is sent likewise. -/
theorem blank_action_is_sent :
    cesiSendMessage [] openedState = openedState ∧
    cesiSendMessage "  ".toList openedState = openedState ∧
    (cesiSendAction (some (.str [])) openedState).transcript =
      [{ speaker := .bot, typing := false, text := greetingText, controls := [] },
       { speaker := .user, typing := false, text := [], controls := [] },
       typingDiv] ∧
    (cesiSendAction (some (.str [])) openedState).cesiUserMessageCount = 1 ∧
    (cesiSendAction (some (.str [])) openedState).cesiMessageCount = 1 ∧
    (cesiSendAction (some (.str [])) openedState).timers =
      [{ id := 3, kind := .inactivity, delay := 30000 }] ∧
    (cesiSendAction (some (.str [])) openedState).requests =
      [{ message := some (.str []), session_id := "session_1".toList }] ∧
    (cesiSendAction (some (.str "  ".toList)) openedState).requests =
      [{ message := some (.str "  ".toList), session_id := "session_1".toList }] := by
  refine ⟨by decide, by decide, by decide, by decide, by decide, by decide, by decide, by decide⟩

/-- C20, as stated, fails: for the descriptor with action ` Цены` (a leading
blank) the click sends the payload as it is, while typing it and sending
trims it; the user turns and the request messages differ. -/
theorem action_click_differs_from_typed_send :
    actionButtonClick { textContent := "Цены".toList, action := some (.str " Цены".toList) }
        openedState ≠ cesiSendMessage " Цены".toList openedState ∧
    (actionButtonClick { textContent := "Цены".toList, action := some (.str " Цены".toList) }
        openedState).requests =
      [{ message := some (.str " Цены".toList), session_id := "session_1".toList }] ∧
    (cesiSendMessage " Цены".toList openedState).requests =
      [{ message := some (.str "Цены".toList), session_id := "session_1".toList }] := by
  refine ⟨by decide, by decide, by decide⟩

/-- C20, amended: for every action-button descriptor whose action payload is a
non-empty string without leading or trailing white space, clicking the rendered
button leaves exactly the state that typing the payload and sending it leaves:
the same user turn, the same controls cleared, the same timer reset, composing
indicator and request. -/
theorem action_click_eq_typed_send (b : ActionButton) (payload : JsString) (s : Widget)
    (hb : b.action = some (.str payload)) (htrim : trim payload = payload)
    (hne : payload ≠ []) :
    actionButtonClick b s = cesiSendMessage payload s := by
  have he : payload.isEmpty = false := by
    cases payload with
    | nil => exact absurd rfl hne
    | cons c cs => rfl
  simp [actionButtonClick, cesiSendAction, cesiSendMessage, hb, htrim, he, domString,
    Json.toJsString]

/-- C20 amended, at a concrete input: the button `Цены` with the action
`Посмотреть цены`, clicked on the opened widget. -/
theorem action_click_eq_typed_send_witness :
    trim "Посмотреть цены".toList = "Посмотреть цены".toList ∧
    "Посмотреть цены".toList ≠ [] ∧
    actionButtonClick
        { textContent := "Цены".toList, action := some (.str "Посмотреть цены".toList) }
        openedState = cesiSendMessage "Посмотреть цены".toList openedState :=
  ⟨by decide, by decide,
    action_click_eq_typed_send
      { textContent := "Цены".toList, action := some (.str "Посмотреть цены".toList) }
      "Посмотреть цены".toList openedState rfl (by decide) (by decide)⟩

/-! ## Closed widget, nudge, call-to-action kinds, mask punctuation, phone keyword -/

/-- C22: `cesiShowInactivityMessage` looks at `window.cesiChatOpen` when it
runs. With the widget closed it changes nothing; with the widget open it
appends exactly one bot turn, the nudge, holding one booking button. So a
timeout re-armed by a reply that arrived after closing appends nothing when it
fires, and the timeout armed by a reply with the widget open appends the
nudge. -/
theorem nudge_only_when_open (s : Widget) :
    cesiShowInactivityMessage s =
      (if s.cesiChatOpen = true then
        { s with transcript := s.transcript ++ [Turn.mk .bot false nudgeText [.nudgeButton]] }
      else s) ∧
    (∀ (id : Nat) (t : Timer), s.timers.find? (fun t => t.id == id) = some t →
      t.kind = .inactivity →
      (timerFires id s).transcript =
        (if s.cesiChatOpen = true then
          s.transcript ++ [Turn.mk .bot false nudgeText [.nudgeButton]]
        else s.transcript)) ∧
    (run "session_1".toList (closedWhileInFlight ++ [.settled sampleReply])).timers =
      [{ id := 4, kind := .inactivity, delay := 30000 }] ∧
    (run "session_1".toList (closedWhileInFlight ++ [.settled sampleReply])).cesiChatOpen =
      false ∧
    (run "session_1".toList
        (closedWhileInFlight ++ [.settled sampleReply, .timeout 4])).transcript =
      (run "session_1".toList (closedWhileInFlight ++ [.settled sampleReply])).transcript ∧
    (run "session_1".toList (sampleConversation ++ [.timeout 4])).transcript =
      (run "session_1".toList sampleConversation).transcript ++
        [Turn.mk .bot false nudgeText [.nudgeButton]] := by
  refine ⟨?_, ?_, by decide, by decide, by decide, by decide⟩
  · unfold cesiShowInactivityMessage
    cases s.cesiChatOpen <;> rfl
  · intro id t hfind hkind
    unfold timerFires
    rw [hfind]
    simp only [hkind, cesiShowInactivityMessage]
    cases s.cesiChatOpen <;> rfl

/-- The call `s.includes(sub)` holds exactly when `sub` occurs in `s` as a
contiguous run of characters. -/
theorem includes_iff_substring (s sub : JsString) : includes s sub = true ↔ sub <:+: s := by
  unfold includes
  rw [List.any_eq_true]
  constructor
  · rintro ⟨t, ht, hp⟩
    rw [List.mem_tails] at ht
    rw [List.isPrefixOf_iff_prefix] at hp
    exact List.infix_iff_prefix_suffix.mpr ⟨t, hp, ht⟩
  · intro h
    obtain ⟨t, hp, ht⟩ := List.infix_iff_prefix_suffix.mp h
    exact ⟨t, (List.mem_tails _ _).mpr ht, List.isPrefixOf_iff_prefix.mpr hp⟩

/-- A text that includes `номер телефона` includes `телефон`. -/
theorem includes_phone_keyword (text : JsString)
    (h : includes text "номер телефона".toList = true) :
    includes text "телефон".toList = true := by
  rw [includes_iff_substring] at h ⊢
  have hk : "телефон".toList <:+: "номер телефона".toList :=
    ⟨"номер ".toList, "а".toList, by decide⟩
  exact hk.trans h

/-- The phone-request test of line 836 is the test for `телефон` alone. -/
theorem phone_keyword_test (text : JsString) :
    (includes text "номер телефона".toList || includes text "телефон".toList) =
      includes text "телефон".toList := by
  cases h1 : includes text "номер телефона".toList
  · rfl
  · rw [includes_phone_keyword text h1]
    rfl

/-- C25: the turn that `cesiAppendMessage(speaker, text)` appends carries a
phone-capture control exactly when the speaker is the bot and the text contains
`телефон` as a contiguous, case-sensitive run of characters; it carries no other
control. `Телефон` does not trigger it, a user turn never gets one, and the
test for `номер телефона` never changes the outcome. -/
theorem phone_capture_iff_bot_keyword (type : Speaker) (text : JsString) (s : Widget) :
    (cesiAppendMessage type text s).transcript.getLast? =
      some (Turn.mk type false text
        (if type = .bot ∧ includes text "телефон".toList = true
          then [.phoneCapture newPhoneCapture] else [])) ∧
    (includes text "телефон".toList = true ↔ "телефон".toList <:+: text) ∧
    (includes text "номер телефона".toList || includes text "телефон".toList) =
      includes text "телефон".toList ∧
    includes "Телефон".toList "телефон".toList = false ∧
    includes "Оставьте ваш телефон".toList "телефон".toList = true := by
  refine ⟨?_, includes_iff_substring _ _, phone_keyword_test text, by decide, by decide⟩
  have hk := phone_keyword_test text
  cases type with
  | user =>
    simp [cesiAppendMessage, Turn.dropStaleControls]
  | bot =>
    unfold cesiAppendMessage
    dsimp only
    rw [if_neg (by decide : ¬ (Speaker.bot = Speaker.user)), hk, List.getLast?_concat]

theorem mem_of_mem_slice {d : JsString} {a b : Nat} {x : Char} (h : x ∈ slice d a b) :
    x ∈ d :=
  List.mem_of_mem_take (List.mem_of_mem_drop h)

theorem count_slice_of_digits (d : JsString) (hd : ∀ x ∈ d, x.isDigit = true) (c : Char)
    (hc : c.isDigit = false) (a b : Nat) : (slice d a b).count c = 0 := by
  apply List.count_eq_zero.mpr
  intro hmem
  have := hd c (mem_of_mem_slice hmem)
  rw [hc] at this
  exact absurd this (by decide)

/-- The assembled display string as one concatenation. -/
theorem assemble_eq (d : JsString) :
    assemble d =
      ['+', '7'] ++ (if d.length > 1 then [' ', '('] ++ slice d 1 4 else []) ++
        (if d.length ≥ 4 then [')'] ++ slice d 4 7 else []) ++
        (if d.length ≥ 7 then ['-'] ++ slice d 7 9 else []) ++
        (if d.length ≥ 9 then ['-'] ++ slice d 9 11 else []) := by
  unfold assemble joinParts
  split_ifs <;> simp

/-- How often a character that is not a digit occurs in the assembled display
string: as often as in the punctuation tokens that were pushed. -/
theorem count_assemble (d : JsString) (hd : ∀ x ∈ d, x.isDigit = true) (c : Char)
    (hc : c.isDigit = false) :
    (assemble d).count c =
      ['+', '7'].count c + (if d.length > 1 then [' ', '('].count c else 0) +
        (if d.length ≥ 4 then [')'].count c else 0) +
        (if d.length ≥ 7 then ['-'].count c else 0) +
        (if d.length ≥ 9 then ['-'].count c else 0) := by
  have hs := count_slice_of_digits d hd c hc
  unfold assemble joinParts
  split_ifs <;>
    simp only [List.flatten_append, List.flatten_cons, List.flatten_nil, List.append_nil,
      List.count_append, hs, add_zero, List.append_assoc] <;> omega

/-- C24: with `k` the number of normalised digits (between 1 and 11), `format`
returns exactly `+7` for `k = 1` and `+7 (` followed by the `k - 1` subscriber
digits for `k = 2` and `k = 3`; the closing parenthesis occurs once if `k ≥ 4`
and not otherwise, a first hyphen if `k ≥ 7` and a second if `k ≥ 9`; and the
digits of the result are the normalised digits in their order. -/
theorem mask_punctuation_by_digit_count (v : JsString) :
    1 ≤ (normalizedDigits v).length ∧ (normalizedDigits v).length ≤ 11 ∧
    (if (normalizedDigits v).length = 1 then format v = ['+', '7']
      else if (normalizedDigits v).length ≤ 3
        then format v = ['+', '7', ' ', '('] ++ (normalizedDigits v).drop 1
      else (format v).take 7 = ['+', '7', ' ', '('] ++ ((normalizedDigits v).drop 1).take 3) ∧
    (format v).count ')' = (if 4 ≤ (normalizedDigits v).length then 1 else 0) ∧
    (format v).count '-' =
      (if 7 ≤ (normalizedDigits v).length then 1 else 0) +
        (if 9 ≤ (normalizedDigits v).length then 1 else 0) ∧
    digitsOnly (format v) = normalizedDigits v ∧
    format "712".toList = "+7 (12".toList := by
  obtain ⟨t, ht, hl, hdig⟩ := normalizedDigits_shape v
  have hd : ∀ x ∈ normalizedDigits v, x.isDigit = true := by
    intro x hx
    rw [ht] at hx
    rcases List.mem_cons.mp hx with h | h
    · rw [h]; decide
    · exact hdig x h
  have hparen := count_assemble (normalizedDigits v) hd ')' (by decide)
  have hhyph := count_assemble (normalizedDigits v) hd '-' (by decide)
  refine ⟨by rw [ht]; simp, by rw [ht]; simpa using hl, ?_, ?_, ?_, digitsOnly_format v,
    by decide⟩
  · rcases t with _ | ⟨a, _ | ⟨b, _ | ⟨c, r⟩⟩⟩
    · simp [format, ht, assemble, slice, joinParts]
    · simp [format, ht, assemble, slice, joinParts]
    · simp [format, ht, assemble, slice, joinParts]
    · have hlen : ¬ (('7' :: a :: b :: c :: r).length = 1) := by simp
      have hlen3 : ¬ (('7' :: a :: b :: c :: r).length ≤ 3) := by simp
      rw [ht, if_neg hlen, if_neg hlen3]
      simp [format, ht, assemble_eq, slice]
  · show (assemble (normalizedDigits v)).count ')' = _
    rw [hparen]
    simp
  · show (assemble (normalizedDigits v)).count '-' = _
    rw [hhyph]
    simp

/-- Sending a non-empty payload without white space at its ends as an action
leaves the state that typing and sending it leaves. -/
theorem cesiSendAction_eq_cesiSendMessage (payload : JsString) (s : Widget)
    (htrim : trim payload = payload) (hne : payload ≠ []) :
    cesiSendAction (some (.str payload)) s = cesiSendMessage payload s := by
  have he : payload.isEmpty = false := by
    cases payload with
    | nil => exact absurd rfl hne
    | cons c cs => rfl
  simp [cesiSendAction, cesiSendMessage, htrim, he, domString, Json.toJsString]

theorem renderCTA_of_button (cta : JsVal) (b : CtaButton) (w : Widget)
    (ht : cta.truthy = true) (hb : ctaButton cta = some b) :
    renderCTA cta w =
      (if (lastBotMessage w.transcript).isSome = true
        then { w with transcript := appendToLast (.cta b) w.transcript } else w, false) := by
  unfold renderCTA
  rw [hb]
  simp only [ht, Bool.not_true, Bool.false_eq_true, if_false]
  cases lastBotMessage w.transcript <;> rfl

theorem renderCTA_of_throw (cta : JsVal) (w : Widget)
    (ht : cta.truthy = true) (hb : ctaButton cta = none) :
    renderCTA cta w = (w, (lastBotMessage w.transcript).isSome) := by
  unfold renderCTA
  rw [hb]
  simp only [ht, Bool.not_true, Bool.false_eq_true, if_false]
  cases lastBotMessage w.transcript <;> rfl

theorem ctaLabel_eq_none_iff (text : JsVal) :
    ctaLabel text = none ↔ text.truthy = true ∧ domString text = none := by
  unfold ctaLabel
  by_cases ht : text.truthy = true
  · rw [if_pos ht]
    exact ⟨fun h => ⟨ht, h⟩, fun h => h.2⟩
  · rw [if_neg ht]
    exact ⟨fun h => Option.noConfusion h, fun h => absurd h.1 ht⟩

theorem ctaButton_obj (fields : List (JsString × Json)) :
    ctaButton (some (.obj fields)) =
      match ctaLabel (lookupField fields "text".toList) with
      | none => none
      | some textContent =>
        if ((lookupField fields "type".toList).isString "link".toList &&
            (lookupField fields "url".toList).truthy) = true then
          match lookupField fields "url".toList with
          | some (.str u) =>
            some (CtaButton.mk textContent u ("http".toList.isPrefixOf u) false
              (ctaIcon (lookupField fields "type".toList)))
          | _ => none
        else if ((lookupField fields "type".toList).isString "call".toList &&
            (lookupField fields "phone".toList).truthy) = true then
          match jsStringOf (lookupField fields "phone".toList) with
          | some shown =>
            some (CtaButton.mk textContent ("tel:".toList ++ shown) false false
              (ctaIcon (lookupField fields "type".toList)))
          | none => none
        else
          some (CtaButton.mk textContent "#".toList false true
            (ctaIcon (lookupField fields "type".toList))) := by
  unfold ctaButton
  simp only [getProp, bind, Option.bind, pure]
  cases ctaLabel (lookupField fields "text".toList) <;> rfl

/-- C23, as stated, fails: for the link descriptor `{"type": "link", "url": 5}`
no control is built, `renderCTA` throws at `cta.url.startsWith` and attaches
nothing, and a reply carrying it ends with the apology turn; and the descriptor
`{"type": "book", "text": {"toString": 1}}`, neither a link with a url nor a
call with a phone, is not treated like `book`: the label cannot be converted to
a string, `renderCTA` throws and attaches nothing. -/
theorem cta_control_not_built :
    ctaButton numericUrlCta = none ∧
    renderCTA numericUrlCta openedState = (openedState, true) ∧
    (run "session_1".toList
      [.toggle, .timeout 1, .send "Цены".toList, .settled numericUrlReply]).transcript.map
      (fun t => (t.text, t.controls.length)) =
        [(greetingText, 0), ("Цены".toList, 0), ("Наши цены".toList, 0), (apologyText, 1)] ∧
    ctaButton unprintableTextCta = none ∧
    renderCTA unprintableTextCta openedState = (openedState, true) := by
  refine ⟨by decide, by decide, by decide, by decide, by decide⟩

/-- C23, amended: whenever `renderCTA` builds a control for a descriptor
object, that control depends on the descriptor alone and is attached as it is
whatever the state. A `link` with a truthy url gets that url (a string) as
`href` and a `call` with a truthy phone gets `tel:` plus the phone as text;
their click runs no function of the widget, so no request is issued. Every
other descriptor gets `href="#"` and a click that is
`cesiSendAction('Записаться на консультацию')`, which leaves the state that
typing that text and sending it leaves. No control is built exactly when the
truthy `text` has no string conversion, or the truthy url of a `link` is not a
string, or the truthy phone of a `call` has no string conversion; `renderCTA`
then throws and attaches nothing. -/
theorem cta_control_by_kind (fields : List (JsString × Json)) (s : Widget) :
    (∀ b : CtaButton, ctaButton (some (.obj fields)) = some b →
      (∀ w : Widget, renderCTA (some (.obj fields)) w =
        (if (lastBotMessage w.transcript).isSome = true
          then { w with transcript := appendToLast (.cta b) w.transcript } else w, false)) ∧
      (if ((lookupField fields "type".toList).isString "link".toList &&
            (lookupField fields "url".toList).truthy) = true then
          lookupField fields "url".toList = some (.str b.href) ∧ ctaClick b s = s
        else if ((lookupField fields "type".toList).isString "call".toList &&
            (lookupField fields "phone".toList).truthy) = true then
          (∃ shown : JsString, jsStringOf (lookupField fields "phone".toList) = some shown ∧
            b.href = "tel:".toList ++ shown) ∧
          ctaClick b s = s
        else
          b.href = "#".toList ∧
          ctaClick b s = cesiSendAction (some (.str bookingText)) s ∧
          ctaClick b s = cesiSendMessage bookingText s)) ∧
    (ctaButton (some (.obj fields)) = none ↔
      ((lookupField fields "text".toList).truthy = true ∧
        domString (lookupField fields "text".toList) = none) ∨
      (((lookupField fields "type".toList).isString "link".toList &&
          (lookupField fields "url".toList).truthy) = true ∧
        (lookupField fields "url".toList).isTextOrAbsent = false) ∨
      (((lookupField fields "type".toList).isString "link".toList &&
          (lookupField fields "url".toList).truthy) = false ∧
        ((lookupField fields "type".toList).isString "call".toList &&
          (lookupField fields "phone".toList).truthy) = true ∧
        jsStringOf (lookupField fields "phone".toList) = none)) ∧
    (ctaButton (some (.obj fields)) = none →
      ∀ w : Widget, renderCTA (some (.obj fields)) w =
        (w, (lastBotMessage w.transcript).isSome)) := by
  have hbook : cesiSendAction (some (.str bookingText)) s = cesiSendMessage bookingText s :=
    cesiSendAction_eq_cesiSendMessage bookingText s (by decide) (by decide)
  have hbtn : ∀ b, ctaButton (some (.obj fields)) = some b →
      ∀ w : Widget, renderCTA (some (.obj fields)) w =
        (if (lastBotMessage w.transcript).isSome = true
          then { w with transcript := appendToLast (.cta b) w.transcript } else w, false) :=
    fun b hb w => renderCTA_of_button _ b w rfl hb
  refine ⟨?_, ?_, fun hb w => renderCTA_of_throw _ w rfl hb⟩
  · intro b hb
    refine ⟨hbtn b hb, ?_⟩
    rw [ctaButton_obj] at hb
    generalize lookupField fields "type".toList = type at hb ⊢
    generalize lookupField fields "url".toList = url at hb ⊢
    generalize lookupField fields "phone".toList = phone at hb ⊢
    cases hl : ctaLabel (lookupField fields "text".toList) with
    | none => rw [hl] at hb; exact Option.noConfusion hb
    | some label =>
      rw [hl] at hb
      dsimp only at hb
      by_cases hlink : (type.isString "link".toList && url.truthy) = true
      · rw [if_pos hlink] at hb ⊢
        rcases url with _ | (_ | t | ⟨z, sh⟩ | u | xs | fs) <;> dsimp only at hb <;>
          first
          | (simp only [Option.some.injEq] at hb; subst hb; exact ⟨rfl, rfl⟩)
          | exact Option.noConfusion hb
      · rw [if_neg hlink] at hb ⊢
        by_cases hcall : (type.isString "call".toList && phone.truthy) = true
        · rw [if_pos hcall] at hb ⊢
          cases hp : jsStringOf phone with
          | none => rw [hp] at hb; exact Option.noConfusion hb
          | some shown =>
            rw [hp] at hb
            simp only [Option.some.injEq] at hb
            subst hb
            exact ⟨⟨shown, rfl, rfl⟩, rfl⟩
        · rw [if_neg hcall] at hb ⊢
          simp only [Option.some.injEq] at hb
          subst hb
          exact ⟨rfl, rfl, hbook⟩
  · rw [ctaButton_obj, ← ctaLabel_eq_none_iff]
    generalize lookupField fields "type".toList = type
    generalize lookupField fields "url".toList = url
    generalize lookupField fields "phone".toList = phone
    generalize ctaLabel (lookupField fields "text".toList) = label
    generalize hlk : (type.isString "link".toList && url.truthy) = lk
    generalize (type.isString "call".toList && phone.truthy) = cl
    cases label with
    | none => exact ⟨fun _ => Or.inl rfl, fun _ => rfl⟩
    | some textContent =>
      dsimp only
      cases lk with
      | true =>
        rcases url with _ | (_ | t | ⟨z, sh⟩ | u | xs | fs) <;>
          first
          | (simp [JsVal.isTextOrAbsent]; done)
          | simp [JsVal.truthy] at hlk
      | false =>
        cases cl with
        | true => cases jsStringOf phone <;> simp
        | false => simp

/-- C23, amended, at a concrete input: the `link` descriptor of
`linkCtaFields` yields a control, whose click on the opened widget changes
nothing. -/
theorem cta_control_by_kind_witness :
    ∃ b : CtaButton, ctaButton (some (.obj linkCtaFields)) = some b ∧
      b.href = "https://dental41.ru/price".toList ∧ ctaClick b openedState = openedState := by
  have hb : ctaButton (some (.obj linkCtaFields)) =
      some (CtaButton.mk "Цены".toList "https://dental41.ru/price".toList true false
        "🔗".toList) := by decide
  have h := ((cta_control_by_kind linkCtaFields openedState).1 _ hb).2
  have hlink : ((lookupField linkCtaFields "type".toList).isString "link".toList &&
      (lookupField linkCtaFields "url".toList).truthy) = true := by decide
  rw [if_pos hlink] at h
  exact ⟨_, hb, rfl, h.2⟩

/-! ## The reply handler and the open flag -/

theorem cesiHideTypingIndicator_withOpen (b : Bool) (s : Widget) :
    cesiHideTypingIndicator (s.withOpen b) = (cesiHideTypingIndicator s).withOpen b := rfl

theorem cesiAppendMessage_withOpen (b : Bool) (type : Speaker) (text : JsString) (s : Widget) :
    cesiAppendMessage type text (s.withOpen b) = (cesiAppendMessage type text s).withOpen b := by
  unfold cesiAppendMessage
  dsimp only
  split <;> rfl

theorem clearInactivityTimer_withOpen (b : Bool) (s : Widget) :
    clearInactivityTimer (s.withOpen b) = (clearInactivityTimer s).withOpen b := by
  unfold clearInactivityTimer
  cases h : s.cesiInactivityTimer with
  | none => simp [Widget.withOpen, h]
  | some id =>
    by_cases h0 : id = 0
    · simp [Widget.withOpen, h, h0]
    · simp [Widget.withOpen, h, h0, clearTimeout]

theorem cesiResetInactivityTimer_withOpen (b : Bool) (s : Widget) :
    cesiResetInactivityTimer (s.withOpen b) = (cesiResetInactivityTimer s).withOpen b := by
  unfold cesiResetInactivityTimer
  rw [clearInactivityTimer_withOpen]
  rfl

theorem renderCTA_withOpen (b : Bool) (cta : JsVal) (s : Widget) :
    renderCTA cta (s.withOpen b) = ((renderCTA cta s).1.withOpen b, (renderCTA cta s).2) := by
  unfold renderCTA
  by_cases ht : cta.truthy = true
  · simp only [ht, Bool.not_true, Bool.false_eq_true, if_false]
    have hl : lastBotMessage (s.withOpen b).transcript = lastBotMessage s.transcript := rfl
    rw [hl]
    cases lastBotMessage s.transcript with
    | none => rfl
    | some t =>
      cases ctaButton cta with
      | none => rfl
      | some btn => rfl
  · simp [ht]

theorem renderActionButtons_withOpen (b : Bool) (actionButtons : JsVal) (s : Widget) :
    renderActionButtons actionButtons (s.withOpen b) =
      ((renderActionButtons actionButtons s).1.withOpen b,
        (renderActionButtons actionButtons s).2) := by
  unfold renderActionButtons
  have hl : lastBotMessage (s.withOpen b).transcript = lastBotMessage s.transcript := rfl
  rw [hl]
  split
  · rfl
  · cases lastBotMessage s.transcript with
    | none => rfl
    | some t =>
      dsimp only
      split
      · split <;> rfl
      · rfl

theorem renderAttachments_withOpen (b : Bool) (cta actionButtons : JsVal) (s : Widget) :
    renderAttachments cta actionButtons (s.withOpen b) =
      ((renderAttachments cta actionButtons s).1.withOpen b,
        (renderAttachments cta actionButtons s).2) := by
  unfold renderAttachments
  by_cases hc : cta.truthy = true <;> simp only [hc, if_true, if_false, Bool.false_eq_true]
  · rw [renderCTA_withOpen]
    dsimp only
    by_cases ht : (renderCTA cta s).2 = true <;>
      simp only [ht, if_true, if_false, Bool.false_eq_true]
    by_cases ha : actionButtons.truthy = true <;>
      simp only [ha, if_true, if_false, Bool.false_eq_true]
    rw [renderActionButtons_withOpen]
  · by_cases ha : actionButtons.truthy = true <;>
      simp only [ha, if_true, if_false, Bool.false_eq_true]
    rw [renderActionButtons_withOpen]

theorem appendReplyText_withOpen (b : Bool) (text : JsVal) (s : Widget) :
    appendReplyText text (s.withOpen b) = (appendReplyText text s).map (Widget.withOpen b) := by
  unfold appendReplyText
  split
  · cases jsStringOf text with
    | none => rfl
    | some shown =>
      dsimp only
      rw [cesiAppendMessage_withOpen]
      rfl
  · rfl

theorem onReplyData_withOpen (b : Bool) (data : JsVal) (s : Widget) :
    onReplyData data (s.withOpen b) =
      ((onReplyData data s).1.withOpen b, (onReplyData data s).2) := by
  unfold onReplyData
  dsimp only
  rw [cesiHideTypingIndicator_withOpen]
  cases replyText data with
  | none => rfl
  | some text =>
    dsimp only
    rw [appendReplyText_withOpen]
    cases appendReplyText text (cesiHideTypingIndicator s) with
    | none => rfl
    | some w =>
      dsimp only [Option.map]
      rw [cesiResetInactivityTimer_withOpen]
      cases getProp data "cta".toList with
      | none => rfl
      | some cta =>
        cases getProp data "action_buttons".toList with
        | none => rfl
        | some ab =>
          dsimp only
          rw [renderAttachments_withOpen]

theorem onTransportError_withOpen (b : Bool) (s : Widget) :
    onTransportError (s.withOpen b) = (onTransportError s).withOpen b := by
  unfold onTransportError
  rw [cesiHideTypingIndicator_withOpen, cesiAppendMessage_withOpen]

/-- C21, as stated, fails: in the run `closedWhileInFlight` the widget is
closed when `sampleReply` arrives, yet the reply handler hides the composing
indicator and adds the bot turn with its call-to-action to the transcript. -/
theorem reply_rendered_while_closed :
    (run "session_1".toList closedWhileInFlight).cesiChatOpen = false ∧
    (run "session_1".toList closedWhileInFlight).transcript.map
      (fun t => (t.speaker, t.typing, t.text, t.controls.length)) =
      [(.bot, false, greetingText, 0), (.user, false, "Привет".toList, 0),
       (.bot, true, [], 0)] ∧
    (run "session_1".toList (closedWhileInFlight ++ [.settled sampleReply])).transcript.map
      (fun t => (t.speaker, t.typing, t.text, t.controls.length)) =
      [(.bot, false, greetingText, 0), (.user, false, "Привет".toList, 0),
       (.bot, false, "Приходите на консультацию".toList, 1)] ∧
    ctaCount (run "session_1".toList (closedWhileInFlight ++ [.settled sampleReply])) = 1 := by
  refine ⟨by decide, by decide, by decide, by decide⟩

/-- C21, amended: the promise chain never reads `window.cesiChatOpen`. Run on
a state with the flag set either way it leaves the same state up to that flag;
so a reply that arrives while the widget is closed adds to the transcript
exactly what it adds while the widget is open. -/
theorem reply_ignores_open_flag (r : FetchResult) (s : Widget) (b : Bool) :
    settle onReplyData r (s.withOpen b) = (settle onReplyData r s).withOpen b ∧
    (settle onReplyData r (s.withOpen false)).transcript =
      (settle onReplyData r (s.withOpen true)).transcript := by
  have h : ∀ c : Bool,
      settle onReplyData r (s.withOpen c) = (settle onReplyData r s).withOpen c := by
    intro c
    rw [settle_eq, settle_eq]
    cases responseData r with
    | none => exact onTransportError_withOpen c s
    | some data =>
      dsimp only
      rw [onReplyData_withOpen]
      dsimp only
      split
      · exact onTransportError_withOpen c _
      · rfl
  refine ⟨h b, ?_⟩
  rw [h false, h true]
  rfl

end CesiWidget
